import Mathlib

/-!
Place lookup and provider coordination (`src/vikgoto.c`).

A shallow embedding of the provider registry (`find_provider`, `get_provider`,
`vik_goto_place`), of the two search entry points (`vik_goto_search_response`,
`goto_panel_search_response`), of the result delivery (`_idle_update`) and of
the reverse-geocoding chain (`a_vik_goto_where_am_i`).

Conventions.
* A C string is the list of its characters up to, not including, the NUL.
* A `gdouble` is the rational number it denotes; `!=`, `<` and `>` on finite
  doubles are the comparisons of those numbers.  `g_ascii_strtod` is a parameter
  of the embedding, so nothing below depends on how decimal text is rounded.
* File-level variables of the C file are the fields of `Globals`.
* Library calls (GLib, GTK) are modelled by their documented behaviour.
-/

namespace VikGoto

/-! ## C strings and GLib helpers -/

/-- A C string: its characters before the terminating NUL. -/
abbrev CStr := List Char

/-- The NUL character. -/
def NUL : Char := Char.ofNat 0

/-- Function `strncmp (hay, needle, strlen needle) == 0`, the inner comparison loop of
`g_strstr_len`. -/
def starts_with : List Char → List Char → Bool
  | _, [] => true
  | [], _ :: _ => false
  | h :: hs, n :: ns => h == n && starts_with hs ns

/-- The search loop of `g_strstr_len`, at offset `p` with the characters from `p`
to the end of the haystack as list: it stops when fewer characters than the
needle remain (`p <= end` fails) or at a NUL of the haystack (`*p`). -/
def g_strstr_len_from (needle : List Char) : List Char → Nat → Option Nat
  | [], _ => none
  | c :: rest, p =>
    if (c :: rest).length < needle.length then none
    else if c = NUL then none
    else if starts_with (c :: rest) needle then some p
    else g_strstr_len_from needle rest (p + 1)

/-- Function `g_strstr_len (text, len, needle)` for a non-empty needle: the
offset of the first occurrence of `needle` in the `len` characters of `text`
that starts before any NUL, or `none` (`NULL`). -/
def g_strstr_len (text : List Char) (needle : List Char) : Option Nat :=
  g_strstr_len_from needle text 0

/-- Function `g_strndup (ss, n)`: at most `n` characters, cut at the first NUL. -/
def g_strndup (ss : List Char) (n : Nat) : CStr :=
  (ss.take n).takeWhile (fun c => c != NUL)

/-- Function `g_ascii_isdigit`. -/
def g_ascii_isdigit (c : Char) : Bool :=
  decide ('0'.toNat ≤ c.toNat) && decide (c.toNat ≤ '9'.toNat)

/-- Function `g_list_nth_data (list, n)` where `n` comes from a C `int`: the
parameter is a `guint`, so a negative index designates no element. -/
def g_list_nth_data {α : Type} (l : List α) (n : Int) : Option α :=
  if n < 0 then none else l.get? n.toNat

/-! ## Data model -/

/-- Type `struct LatLon`. -/
structure LatLon where
  lat : Rat
  lon : Rat
  deriving DecidableEq, Repr

/-- Modelled from the spec: `VikCoord` is declared in a header that is not part
of the sources; the spec describes a coordinate as a pair of degrees. -/
structure VikCoord where
  north_south : Rat
  east_west : Rat
  deriving DecidableEq, Repr

/-- Type `struct VikGotoCandidate`. -/
structure VikGotoCandidate where
  description : CStr
  ll : LatLon
  deriving DecidableEq, Repr

/-- A registered `VikGotoTool`, seen through the three calls the file makes on
it: `vik_goto_tool_get_label`, `vik_goto_tool_get_coord` (the return code and
the content of `*vcoord` afterwards, given the query and the content before)
and `vik_goto_tool_get_candidates` (the return code and the candidate list). -/
structure VikGotoTool where
  label : CStr
  get_coord : CStr → VikCoord → Int × VikCoord
  get_candidates : CStr → Int × List VikGotoCandidate

/-- The file-level variables of `vikgoto.c`, the value stored under the settings
key `"goto_provider"`, and a log of the `vik_goto_tool_get_coord` invocations
(position of the tool in `goto_tools_list`, query), oldest first. -/
structure Globals where
  goto_tools_list : List VikGotoTool
  last_goto_tool : Int
  find_entry : Int
  wanted_entry : Int
  last_goto_str : Option CStr
  goto_provider : Option CStr
  get_coord_calls : List (Int × CStr)

/-- Modelled from the spec: `a_settings_get_string ("goto_provider", &provider)`
is `getString(key) -> Optional<string>`; the pair is the `gboolean` returned and
the pointer stored in `provider`. -/
def a_settings_get_string (g : Globals) : Bool × Option CStr :=
  (g.goto_provider.isSome, g.goto_provider)

/-- Modelled from the spec: `a_settings_set_string ("goto_provider", value)` is
`setString(key, value)`; a `NULL` value stores nothing. -/
def a_settings_set_string (g : Globals) (value : Option CStr) : Globals :=
  match value with
  | none => g
  | some v => { g with goto_provider := some v }

/-! ## Provider registry -/

/-- Function `find_provider`, the callback of `g_list_foreach`: one element. -/
def find_provider (g : Globals) (elem : VikGotoTool) (provider : CStr) : Globals :=
  let g1 := { g with find_entry := g.find_entry + 1 }
  if elem.label = provider then { g1 with wanted_entry := g1.find_entry } else g1

/-- Function `g_list_foreach (goto_tools_list, find_provider, provider)`. -/
def foreach_find_provider (provider : CStr) : List VikGotoTool → Globals → Globals
  | [], g => g
  | elem :: rest, g => foreach_find_provider provider rest (find_provider g elem provider)

/-- Function `get_provider`: gives `last_goto_tool` a value when it has none. -/
def get_provider (g : Globals) : Globals :=
  if g.last_goto_tool < 0 then
    let g1 := { g with find_entry := -1, wanted_entry := -1 }
    match a_settings_get_string g1 with
    | (true, provider) =>
      let g2 := match provider with
        | some p => foreach_find_provider p g1.goto_tools_list g1
        | none => g1
      { g2 with last_goto_tool := if g2.wanted_entry < 0 then 0 else g2.wanted_entry }
    | (false, _) => { g1 with last_goto_tool := 0 }
  else g

/-- Function `vik_goto_place (vvp, name, vcoord)`: the globals afterwards, the `gboolean`
returned and the content of `*vcoord` afterwards. -/
def vik_goto_place (g : Globals) (name : CStr) (vcoord : VikCoord) :
    Globals × Bool × VikCoord :=
  let g1 := get_provider g
  match g1.goto_tools_list with
  | [] => (g1, false, vcoord)
  | _ :: _ =>
    match g_list_nth_data g1.goto_tools_list g1.last_goto_tool with
    | some gototool =>
      let r := gototool.get_coord name vcoord
      let g2 := { g1 with get_coord_calls := g1.get_coord_calls ++ [(g1.last_goto_tool, name)] }
      if r.1 = 0 then (g2, true, r.2) else (g2, false, r.2)
    | none => (g1, false, vcoord)

/-! ## Search entry points and delivery of a background search -/

/-- One row of a results `GtkListStore`: the columns
`VIK_GOTO_SEARCH_DESC_COL`, `VIK_GOTO_SEARCH_LAT_COL`, `VIK_GOTO_SEARCH_LON_COL`. -/
structure Row where
  desc : CStr
  lat : Rat
  lon : Rat
  deriving DecidableEq, Repr

/-- The `gtk_list_store_set` call of the fill loops: the row of one candidate. -/
def candidate_row (cand : VikGotoCandidate) : Row :=
  { desc := cand.description, lat := cand.ll.lat, lon := cand.ll.lon }

/-- The fill loop `for (gl = candidates; gl != NULL; gl = gl->next)`:
`gtk_list_store_append` adds a row at the end of the store, `gtk_list_store_set`
fills it. -/
def append_candidates : List VikGotoCandidate → List Row → List Row
  | [], store => store
  | cand :: rest, store => append_candidates rest (store ++ [candidate_row cand])

/-- The dialog response ids that `vik_goto_search_response` distinguishes. -/
inductive GtkResponse where
  | accept
  | close
  | other
  deriving DecidableEq, Repr

/-- What `struct VikGotoSearchWinData` gives access to: the active item of
`tool_list` (`-1` when there is none), the text of `goto_entry`, the rows and
selected row of `results_view`, whether `scroll_view` is shown, whether the
"Service request failure." message was raised, and whether the dialog was
destroyed. -/
structure VikGotoSearchWinData where
  tool_list_active : Int
  goto_entry_text : CStr
  results : List Row
  selection : Option Nat
  scroll_view_shown : Bool
  error_msg : Bool
  destroyed : Bool

/-- Function `vik_goto_search_response`.  `none` stands for the run in which
`g_list_nth_data` yields `NULL` (the `TODO check if list is empty` of the
source): the tool calls on a `NULL` tool are outside the embedding. -/
def vik_goto_search_response (g : Globals) (data : VikGotoSearchWinData)
    (response : GtkResponse) : Option (Globals × VikGotoSearchWinData) :=
  match response with
  | .accept =>
    let g1 := { g with last_goto_tool := data.tool_list_active }
    match g_list_nth_data g1.goto_tools_list g1.last_goto_tool with
    | none => none
    | some tool =>
      let g2 := a_settings_set_string g1 (some tool.label)
      let goto_str := data.goto_entry_text
      let g3 := if goto_str ≠ [] then { g2 with last_goto_str := some goto_str } else g2
      let r := tool.get_candidates goto_str
      if r.1 = 0 then
        some (g3, { data with
          scroll_view_shown := true
          results := append_candidates r.2 []
          selection := if r.2.length > 0 then some 0 else none })
      else
        some (g3, { data with error_msg := true })
  | .close => some (g, { data with destroyed := true })
  | .other => some (g, data)

/-- The fields of `struct _VikGotoPanel` that the file reads or writes: the text
of `goto_entry`, the active item of `tool_list` (`-1` when there is none), the
sensitivity of `find_button`, the title of the description column of
`results_view`, the rows of `results_store` and the selected row. -/
structure VikGotoPanel where
  goto_entry_text : CStr
  tool_list_active : Int
  find_button_sensitive : Bool
  desc_col_title : String
  results_store : List Row
  selection : Option Nat

/-- Type `SearchThreadT`, without the pointers to the viewport and the panel. -/
structure SearchThreadT where
  tool : VikGotoTool
  answer : Int
  candidates : List VikGotoCandidate
  goto_str : CStr
  alive : Bool

/-- Function `gtk_list_store_clear`: no row remains, hence no selected row either. -/
def gtk_list_store_clear (vgp : VikGotoPanel) : VikGotoPanel :=
  { vgp with results_store := [], selection := none }

/-- Function `goto_panel_search_clear`. -/
def goto_panel_search_clear (vgp : VikGotoPanel) : VikGotoPanel :=
  { gtk_list_store_clear vgp with find_button_sensitive := true }

/-- Function `_idle_update`: the panel after the delivery of job `stt`.  The selection
function `vik_goto_search_list_select` returns `TRUE` on every path, so
`gtk_tree_selection_select_iter` selects the row it is given. -/
def _idle_update (stt : SearchThreadT) (vgp : VikGotoPanel) : VikGotoPanel :=
  let v1 := gtk_list_store_clear vgp
  let v2 := { v1 with results_store := append_candidates stt.candidates v1.results_store }
  let v3 :=
    if stt.candidates.length > 0 then
      { v2 with desc_col_title := "Description", selection := some 0 }
    else
      { v2 with desc_col_title := "No results" }
  let v4 := if stt.answer ≠ 0 then { v3 with desc_col_title := "Service request failure" } else v3
  { v4 with find_button_sensitive := true }

/-- Function `get_locations_thread` up to the locked test of `alive`: the job with the
answer and the candidates of the tool, and whether `_idle_update` is queued. -/
def get_locations_thread (stt : SearchThreadT) : SearchThreadT × Bool :=
  let r := stt.tool.get_candidates stt.goto_str
  let stt1 := { stt with answer := r.1, candidates := r.2 }
  (stt1, stt1.alive)

/-- Function `weak_ref_cb`. -/
def weak_ref_cb (stt : SearchThreadT) : SearchThreadT :=
  { stt with alive := false }

/-- Function `goto_panel_search_response`: the globals, the panel and the job handed to
`a_background_thread`, if any.  `answer0` is the indeterminate content of the
`answer` field of the freshly allocated job.  As in the dialog, `none` stands
for the run in which `g_list_nth_data` yields `NULL`. -/
def goto_panel_search_response (g : Globals) (vgp : VikGotoPanel) (answer0 : Int) :
    Option (Globals × VikGotoPanel × Option SearchThreadT) :=
  let atool := vgp.tool_list_active
  if atool < 0 then some (g, vgp, none)
  else
    let v1 := { vgp with desc_col_title := "Searching...", find_button_sensitive := false }
    match g_list_nth_data g.goto_tools_list atool with
    | none => none
    | some tool =>
      let g1 := a_settings_set_string g (some tool.label)
      let stt : SearchThreadT :=
        { tool := tool, answer := answer0, candidates := [],
          goto_str := v1.goto_entry_text, alive := true }
      some (g1, v1, some stt)

/-! ## Reverse geocoding: `a_vik_goto_where_am_i` -/

/-- Constant `JSON_LATITUDE_PATTERN`. -/
def JSON_LATITUDE_PATTERN : List Char := "\"geoplugin_latitude\":\"".toList
/-- Constant `JSON_LONGITUDE_PATTERN`. -/
def JSON_LONGITUDE_PATTERN : List Char := "\"geoplugin_longitude\":\"".toList
/-- Constant `JSON_CITY_PATTERN`. -/
def JSON_CITY_PATTERN : List Char := "\"geoplugin_city\":\"".toList
/-- Constant `JSON_COUNTRY_PATTERN`. -/
def JSON_COUNTRY_PATTERN : List Char := "\"geoplugin_countryName\":\"".toList

/-- The size of `lat_buf` and of `lon_buf`. -/
def BUF_SIZE : Nat := 32

/-- An access outside an object, where the C program has no defined behaviour:
a read of `text[index]` with `index >= len`, or a write of `buf[index]` with
`index >= sizeof buf`. -/
inductive Fault where
  | read_out_of_bounds (index : Nat)
  | write_out_of_bounds (index : Nat)
  deriving DecidableEq, Repr

/-- The loop `while (*pat != '"') { fragment_len++; pat++; }`: `rest` is the text
from `pat` on, `pat` its offset; the result is `fragment_len`. -/
def scan_to_quote : List Char → Nat → Nat → Except Fault Nat
  | [], pat, _ => .error (.read_out_of_bounds pat)
  | c :: rest, pat, fragment_len =>
    if c = '"' then .ok fragment_len else scan_to_quote rest (pat + 1) (fragment_len + 1)

/-- The country and city blocks: `NULL` (`none`) when the marker is not found,
else the `g_strndup` of the text between the marker and the next quote. -/
def extract_quoted (text : List Char) (pattern : List Char) : Except Fault (Option CStr) :=
  match g_strstr_len text pattern with
  | none => .ok none
  | some p =>
    let start := p + pattern.length
    match scan_to_quote (text.drop start) start 0 with
    | .error e => .error e
    | .ok fragment_len => .ok (some (g_strndup (text.drop start) fragment_len))

/-- The copy loop `while (ss < buf + sizeof buf && pat < text + len &&
(g_ascii_isdigit (*pat) || *pat == '.')) *ss++ = *pat++;`: `rest` is the text
from `pat` on, `buf` the characters written so far (`ss - buf` of them). -/
def copy_number : List Char → List Char → List Char
  | [], buf => buf
  | c :: rest, buf =>
    if buf.length < BUF_SIZE ∧ (g_ascii_isdigit c || c == '.') then
      copy_number rest (buf ++ [c])
    else buf

/-- The latitude and longitude blocks: `none` when the marker is not found, else
the string left in the 32-byte buffer.  The test `*pat == '-'` reads the
character after the marker; the final `*ss = '\0'` writes at `ss - buf`. -/
def extract_number (text : List Char) (pattern : List Char) : Except Fault (Option CStr) :=
  match g_strstr_len text pattern with
  | none => .ok none
  | some p =>
    let start := p + pattern.length
    match text.drop start with
    | [] => .error (.read_out_of_bounds start)
    | c :: rest =>
      let buf := if c = '-' then copy_number rest [c] else copy_number (c :: rest) []
      if buf.length < BUF_SIZE then .ok (some buf) else .error (.write_out_of_bounds buf.length)

/-- The library and sibling-module functions that `a_vik_goto_where_am_i` calls
on its data: `g_ascii_strtod` (on the content of a buffer) and
`vik_coord_to_latlon`. -/
structure Env where
  g_ascii_strtod : CStr → Rat
  vik_coord_to_latlon : VikCoord → LatLon

deriving instance DecidableEq for Except

/-- The local variables after the four extraction blocks (lines 699-746). -/
structure Fields where
  country : Option CStr
  city : Option CStr
  ll : LatLon
  deriving DecidableEq, Repr

/-- Lines 699-746: `ll->lat` and `ll->lon` keep the `0.0` of lines 681-682 when
their marker is absent. -/
def extract (env : Env) (text : List Char) : Except Fault Fields :=
  match extract_quoted text JSON_COUNTRY_PATTERN with
  | .error e => .error e
  | .ok country =>
    match extract_quoted text JSON_CITY_PATTERN with
    | .error e => .error e
    | .ok city =>
      match extract_number text JSON_LATITUDE_PATTERN with
      | .error e => .error e
      | .ok lat_buf =>
        match extract_number text JSON_LONGITUDE_PATTERN with
        | .error e => .error e
        | .ok lon_buf =>
          .ok { country := country, city := city,
                ll := { lat := match lat_buf with
                          | none => 0
                          | some b => env.g_ascii_strtod b,
                        lon := match lon_buf with
                          | none => 0
                          | some b => env.g_ascii_strtod b } }

/-- What `a_vik_goto_where_am_i` leaves behind: the value returned, `*name`,
`*ll` and the globals. -/
structure WhereAmI where
  result : Int
  name : Option CStr
  ll : LatLon
  globals : Globals

/-- The part of `WhereAmI` that a caller and the tools observe: the value
returned, `*name`, `*ll` and the log of tool calls. -/
structure Observed where
  result : Int
  name : Option CStr
  ll : LatLon
  get_coord_calls : List (Int × CStr)
  deriving DecidableEq, Repr

/-- The observable part of a run; `none` for a run that left the payload or a
buffer. -/
def observe (r : Except Fault WhereAmI) : Option Observed :=
  match r with
  | .ok w => some { result := w.result, name := w.name, ll := w.ll,
                    get_coord_calls := w.globals.get_coord_calls }
  | .error _ => none

/-- The country block, lines 778-791; `new_center` is the indeterminate initial
content of the local variable of that block. -/
def try_country (env : Env) (g : Globals) (f : Fields) (new_center : VikCoord) : WhereAmI :=
  match f.country with
  | some country =>
    if country ≠ "(Unknown Country)".toList then
      match vik_goto_place g country new_center with
      | (g1, true, c) =>
        { result := 3, name := some country, ll := env.vik_coord_to_latlon c, globals := g1 }
      | (g1, false, _) => { result := 0, name := none, ll := f.ll, globals := g1 }
    else { result := 0, name := none, ll := f.ll, globals := g }
  | none => { result := 0, name := none, ll := f.ll, globals := g }

/-- The decision of lines 748-792 on the extracted fields.  `city_center` and
`country_center` are the indeterminate initial contents of the two local
variables `new_center`, of the city block and of the country block. -/
def locate (env : Env) (g : Globals) (f : Fields) (city_center country_center : VikCoord) :
    WhereAmI :=
  if f.ll.lat ≠ 0 ∧ f.ll.lon ≠ 0 then
    if f.ll.lat > -90 ∧ f.ll.lat < 90 ∧ f.ll.lon > -180 ∧ f.ll.lon < 180 then
      { result := 1, name := some "Locality".toList, ll := f.ll, globals := g }
    else
      { result := 0, name := none, ll := f.ll, globals := g }
  else
    match f.city with
    | some city =>
      if city ≠ "(Unknown city)".toList then
        match vik_goto_place g city city_center with
        | (g1, true, c) =>
          { result := 2, name := some city, ll := env.vik_coord_to_latlon c, globals := g1 }
        | (g1, false, _) => try_country env g1 f country_center
      else try_country env g f country_center
    | none => try_country env g f country_center

/-- What the download and the mapping of the temporary file produce:
`a_download_uri_to_tmp_file` returns `NULL`, `g_mapped_file_new` returns `NULL`,
or the `len` characters of the file. -/
inductive Payload where
  | download_failed
  | map_failed
  | mapped (text : List Char)
  deriving DecidableEq, Repr

/-- Function `a_vik_goto_where_am_i (vvp, ll, name)`: `ll` is the content of `*ll` on
entry.  An `error` is a run that leaves the payload or a buffer. -/
def a_vik_goto_where_am_i (env : Env) (g : Globals) (payload : Payload) (ll : LatLon)
    (city_center country_center : VikCoord) : Except Fault WhereAmI :=
  match payload with
  | .download_failed => .ok { result := 0, name := none, ll := ll, globals := g }
  | .map_failed => .ok { result := 0, name := none, ll := { lat := 0, lon := 0 }, globals := g }
  | .mapped text =>
    match extract env text with
    | .error e => .error e
    | .ok f => .ok (locate env g f city_center country_center)

/-! ## Concrete instances -/

/-- The number written by a run of decimal digits. -/
def digits_value (ds : List Char) : Nat :=
  ds.foldl (fun n c => 10 * n + (c.toNat - '0'.toNat)) 0

/-- The exact value of the decimal text `-?[0-9]*(.[0-9]*)?` that starts a buffer:
what `g_ascii_strtod` returns up to rounding.  Used for concrete instances. -/
def exact_strtod (s : CStr) : Rat :=
  let body := match s with
    | '-' :: r => r
    | r => r
  let ip := body.takeWhile g_ascii_isdigit
  let fp := match body.dropWhile g_ascii_isdigit with
    | '.' :: r => r.takeWhile g_ascii_isdigit
    | _ => []
  let v : Rat := mkRat (digits_value (ip ++ fp)) (10 ^ fp.length)
  match s with
  | '-' :: _ => -v
  | _ => v

/-- An environment for concrete instances: exact decimal values, and a
`vik_coord_to_latlon` in latitude/longitude mode. -/
def sample_env : Env :=
  { g_ascii_strtod := exact_strtod
    vik_coord_to_latlon := fun c => { lat := c.north_south, lon := c.east_west } }

/-- A tool for concrete instances: it resolves exactly the names of `places`, and
its search returns them all. -/
def sample_tool (label : CStr) (places : List (CStr × VikCoord)) : VikGotoTool :=
  { label := label
    get_coord := fun name vcoord =>
      match places.lookup name with
      | some c => (0, c)
      | none => (1, vcoord)
    get_candidates := fun _ =>
      (0, places.map (fun p =>
        { description := p.1, ll := { lat := p.2.north_south, lon := p.2.east_west } })) }

/-- A payload with a city, a country and a position inside the valid range. -/
def payload_exact : List Char :=
  ("\x7b\"geoplugin_city\":\"Paris\",\"geoplugin_countryName\":\"France\"," ++
   "\"geoplugin_latitude\":\"48.85\",\"geoplugin_longitude\":\"-2.35\"\x7d").toList

/-- A payload with a city and a latitude that is not zero and not below 90. -/
def payload_out_of_range : List Char :=
  ("\x7b\"geoplugin_city\":\"Paris\",\"geoplugin_countryName\":\"France\"," ++
   "\"geoplugin_latitude\":\"95.5\",\"geoplugin_longitude\":\"2.35\"\x7d").toList

/-- A payload with a city and a position of zero. -/
def payload_city : List Char :=
  ("\x7b\"geoplugin_city\":\"Paris\",\"geoplugin_countryName\":\"France\"," ++
   "\"geoplugin_latitude\":\"0\",\"geoplugin_longitude\":\"0\"\x7d").toList

/-- A payload with the city sentinel, a country and no position. -/
def payload_country : List Char :=
  ("\x7b\"geoplugin_city\":\"(Unknown city)\"," ++
   "\"geoplugin_countryName\":\"France\"\x7d").toList

/-- A payload whose country field holds the text of the city sentinel. -/
def payload_sentinel_country : List Char :=
  ("\x7b\"geoplugin_city\":\"(Unknown city)\"," ++
   "\"geoplugin_countryName\":\"(Unknown city)\"\x7d").toList

/-- A payload with both sentinels and no position. -/
def payload_unknown : List Char :=
  ("\x7b\"geoplugin_city\":\"(Unknown city)\"," ++
   "\"geoplugin_countryName\":\"(Unknown Country)\"\x7d").toList

/-- The coordinate a sample tool gives for Paris. -/
def paris : VikCoord := { north_south := 488566 / 10000, east_west := 23522 / 10000 }

/-- The coordinate a sample tool gives for France. -/
def france : VikCoord := { north_south := 46, east_west := 2 }

/-- A tool that resolves Paris, France and, being lenient, the sentinel text. -/
def atlas : VikGotoTool :=
  sample_tool "Atlas".toList
    [("Paris".toList, paris), ("France".toList, france), ("(Unknown city)".toList, france)]

/-- Two tools with the labels "A" and "B". -/
def tools_a_b : List VikGotoTool :=
  [sample_tool "A".toList [("Paris".toList, paris)],
   sample_tool "B".toList [("Paris".toList, france)]]

/-- Two different tools registered under the same label "A". -/
def tools_a_a : List VikGotoTool :=
  [sample_tool "A".toList [("Paris".toList, paris)],
   sample_tool "A".toList [("Paris".toList, france)]]

/-- A dialog whose tool list has item `active` selected and whose entry holds
"Paris". -/
def sample_dialog (active : Int) : VikGotoSearchWinData :=
  { tool_list_active := active, goto_entry_text := "Paris".toList, results := [],
    selection := none, scroll_view_shown := false, error_msg := false, destroyed := false }

/-- A panel whose tool list has item `active` selected and whose entry holds
"Paris"; a row of an earlier search is still listed and selected. -/
def sample_panel (active : Int) : VikGotoPanel :=
  { goto_entry_text := "Paris".toList, tool_list_active := active,
    find_button_sensitive := true, desc_col_title := "Description",
    results_store := [{ desc := "Rome".toList, lat := 419 / 10, lon := 125 / 10 }],
    selection := some 0 }

/-- The candidate "Paris, France" at 48.8566, 2.3522. -/
def paris_candidate : VikGotoCandidate :=
  { description := "Paris, France".toList,
    ll := { lat := 488566 / 10000, lon := 23522 / 10000 } }

/-- A finished job whose tool returned the single candidate `paris_candidate`. -/
def paris_job : SearchThreadT :=
  { tool := atlas, answer := 0, candidates := [paris_candidate],
    goto_str := "Paris".toList, alive := true }

/-! ## Signals of the panel and life of a background job -/

/-- Function `text_changed_cb`, connected to "notify::text" of the entry and called
once when the panel is built: the find button is sensitive exactly when the
entry has text.  (The sensitivity of the entry's icon is not tracked.) -/
def text_changed_cb (vgp : VikGotoPanel) : VikGotoPanel :=
  let has_text := decide (vgp.goto_entry_text.length > 0)
  { vgp with find_button_sensitive := has_text }

/-- An edit of the entry: the new text, then the "notify::text" handler. -/
def set_entry_text (vgp : VikGotoPanel) (text : CStr) : VikGotoPanel :=
  text_changed_cb { vgp with goto_entry_text := text }

/-- The signals that `vik_goto_panel_widget` connects to
`goto_panel_search_response` (lines 609 and 638) and to
`goto_panel_search_clear` (line 639). -/
inductive PanelSignal where
  | entry_activate
  | find_clicked
  | clear_clicked
  deriving DecidableEq, Repr

/-- Emission of a panel signal.  GTK emits "clicked" of a button only while the
button is sensitive; "activate" of the entry is emitted on Return whatever the
text.  The handlers are called with the panel alone: nothing else is tested
between the signal and `goto_panel_search_response`. -/
def panel_signal (g : Globals) (vgp : VikGotoPanel) (answer0 : Int) (sig : PanelSignal) :
    Option (Globals × VikGotoPanel × Option SearchThreadT) :=
  match sig with
  | .entry_activate => goto_panel_search_response g vgp answer0
  | .find_clicked =>
    if vgp.find_button_sensitive then goto_panel_search_response g vgp answer0
    else some (g, vgp, none)
  | .clear_clicked => some (g, goto_panel_search_clear vgp, none)

/-- The query of the job that a panel signal hands to `a_background_thread`:
`none` when the handler is not run to its end, `some none` when no job is
created, `some (some goto_str)` when one is. -/
def submitted_query (r : Option (Globals × VikGotoPanel × Option SearchThreadT)) :
    Option (Option CStr) :=
  r.map (fun x => x.2.2.map (fun stt => stt.goto_str))

/-- The events in the life of one background job: the requester (the panel with
its layers panel) is destroyed; the worker reaches the locked test of `alive`
in `get_locations_thread`; the main loop runs the queued `_idle_update`. -/
inductive JobEvent where
  | requester_destroyed
  | worker_completes
  | idle_delivery
  deriving DecidableEq, Repr

/-- One job and its requester: the job `stt`; the panel `stt->vgp`, `none` once it
is destroyed; whether `weak_ref_cb` is registered on the requester; whether the
worker has completed; whether `_idle_update` is queued; how many times
`_idle_update` ran and how many times a result was dropped at the test of
`alive`; and whether `_idle_update` ran on a destroyed panel. -/
structure JobWorld where
  stt : SearchThreadT
  vgp : Option VikGotoPanel
  weak_ref : Bool
  worker_done : Bool
  idle_queued : Bool
  delivered : Nat
  discarded : Nat
  stale_access : Bool

/-- The world that `goto_panel_search_response` leaves at lines 571-580: the weak
reference is registered and the job is submitted. -/
def job_start (stt : SearchThreadT) (vgp : VikGotoPanel) : JobWorld :=
  { stt := stt, vgp := some vgp, weak_ref := true, worker_done := false,
    idle_queued := false, delivered := 0, discarded := 0, stale_access := false }

/-- One event; `none` when the event cannot happen in that world.
* Destruction runs `weak_ref_cb` if it is still registered.
* The worker stores the answer and the candidates; under the lock, if `alive`,
  it queues `_idle_update` and removes the weak reference, else it drops the
  result.
* The idle callback `_idle_update` uses `stt->vgp` without any test. -/
def job_step (w : JobWorld) : JobEvent → Option JobWorld
  | .requester_destroyed =>
    match w.vgp with
    | none => none
    | some _ =>
      some { w with vgp := none, weak_ref := false,
                    stt := if w.weak_ref then weak_ref_cb w.stt else w.stt }
  | .worker_completes =>
    if w.worker_done then none
    else
      let r := get_locations_thread w.stt
      if r.2 then
        some { w with stt := r.1, worker_done := true, idle_queued := true, weak_ref := false }
      else
        some { w with stt := r.1, worker_done := true, discarded := w.discarded + 1 }
  | .idle_delivery =>
    if w.idle_queued then
      match w.vgp with
      | some v =>
        some { w with vgp := some (_idle_update w.stt v), idle_queued := false,
                      delivered := w.delivered + 1 }
      | none =>
        some { w with idle_queued := false, delivered := w.delivered + 1, stale_access := true }
    else none

/-- A sequence of events, in order. -/
def job_run : JobWorld → List JobEvent → Option JobWorld
  | w, [] => some w
  | w, e :: rest =>
    match job_step w e with
    | none => none
    | some w1 => job_run w1 rest

/-- What is observed of a job world: the two counters, the flag of a use of the
destroyed panel, `alive`, and the rows of the panel if it exists. -/
structure JobObserved where
  delivered : Nat
  discarded : Nat
  stale_access : Bool
  alive : Bool
  rows : Option (List Row)
  deriving DecidableEq, Repr

/-- The observation of a job world. -/
def job_observe (w : JobWorld) : JobObserved :=
  { delivered := w.delivered, discarded := w.discarded, stale_access := w.stale_access,
    alive := w.stt.alive, rows := w.vgp.map (fun v => v.results_store) }

/-- The outcome of a job is counted at most once: the result is still pending
(the worker has not completed, or `_idle_update` is queued) or it was delivered
or dropped, one time in all. -/
def job_inv (w : JobWorld) : Prop :=
  w.delivered + w.discarded + (if w.idle_queued then 1 else 0)
    + (if w.worker_done then 0 else 1) = 1

/-- The range of a valid coordinate: -90 < lat < 90 and -180 < lon < 180. -/
def in_range (lat lon : Rat) : Prop :=
  -90 < lat ∧ lat < 90 ∧ -180 < lon ∧ lon < 180

/-- The fault of a run, if any. -/
def fault_of {α : Type} (r : Except Fault α) : Option Fault :=
  match r with
  | .error e => some e
  | .ok _ => none

/-- A panel with the first tool selected and an empty entry, as the
"notify::text" handler leaves it. -/
def empty_panel : VikGotoPanel := set_entry_text (sample_panel 0) []

/-- The job of a panel search for "Paris" with the first tool of `tools_a_b`. -/
def sample_job : SearchThreadT :=
  { tool := sample_tool "A".toList [("Paris".toList, paris)], answer := 7,
    candidates := [], goto_str := "Paris".toList, alive := true }

/-- A tool whose search succeeds with one candidate at latitude 95, longitude
200. -/
def stray_tool : VikGotoTool :=
  { label := "Stray".toList
    get_coord := fun _ vcoord => (1, vcoord)
    get_candidates := fun _ =>
      (0, [{ description := "Nowhere".toList, ll := { lat := 95, lon := 200 } }]) }

/-- A job for `stray_tool`. -/
def stray_job : SearchThreadT :=
  { tool := stray_tool, answer := 7, candidates := [], goto_str := "Nowhere".toList,
    alive := true }

/-- A payload whose latitude marker is followed by 32 digits. -/
def payload_long_latitude : List Char :=
  ("\x7b\"geoplugin_latitude\":\"12345678901234567890123456789012\"\x7d").toList

/-- A payload whose latitude marker is followed by a minus sign and 31 digits. -/
def payload_long_negative : List Char :=
  ("\x7b\"geoplugin_latitude\":\"-1234567890123456789012345678901\"\x7d").toList

/-- A payload whose latitude marker is followed by 31 digits. -/
def payload_full_latitude : List Char :=
  ("\x7b\"geoplugin_latitude\":\"1234567890123456789012345678901\"\x7d").toList

/-- A payload cut after the start of the city value: no quote follows the city
marker. -/
def payload_open_city : List Char :=
  ("\x7b\"geoplugin_city\":\"Par").toList

/-- A payload cut right after the latitude marker. -/
def payload_marker_last : List Char :=
  ("\x7b\"geoplugin_latitude\":\"").toList

/-- Globals for concrete instances: the given registry, nothing selected yet. -/
def sample_globals (tools : List VikGotoTool) (setting : Option CStr) : Globals :=
  { goto_tools_list := tools, last_goto_tool := -1, find_entry := -1, wanted_entry := -1,
    last_goto_str := none, goto_provider := setting, get_coord_calls := [] }

end VikGoto

namespace VikGoto

/-! ## Lemmas on the provider registry -/

theorem find_provider_frame (g : Globals) (elem : VikGotoTool) (p : CStr) :
    (find_provider g elem p).goto_tools_list = g.goto_tools_list ∧
    (find_provider g elem p).last_goto_tool = g.last_goto_tool ∧
    (find_provider g elem p).last_goto_str = g.last_goto_str ∧
    (find_provider g elem p).goto_provider = g.goto_provider ∧
    (find_provider g elem p).get_coord_calls = g.get_coord_calls := by
  unfold find_provider
  split <;> simp

theorem foreach_find_provider_frame (p : CStr) (l : List VikGotoTool) (g : Globals) :
    (foreach_find_provider p l g).goto_tools_list = g.goto_tools_list ∧
    (foreach_find_provider p l g).last_goto_tool = g.last_goto_tool ∧
    (foreach_find_provider p l g).last_goto_str = g.last_goto_str ∧
    (foreach_find_provider p l g).goto_provider = g.goto_provider ∧
    (foreach_find_provider p l g).get_coord_calls = g.get_coord_calls := by
  induction l generalizing g with
  | nil => simp [foreach_find_provider]
  | cons t rest ih =>
    have h1 := ih (find_provider g t p)
    have h2 := find_provider_frame g t p
    simp only [foreach_find_provider]
    refine ⟨h1.1.trans h2.1, h1.2.1.trans h2.2.1, h1.2.2.1.trans h2.2.2.1,
      h1.2.2.2.1.trans h2.2.2.2.1, h1.2.2.2.2.trans h2.2.2.2.2⟩

theorem get_provider_of_nonneg (g : Globals) (h : 0 ≤ g.last_goto_tool) :
    get_provider g = g := by
  unfold get_provider
  simp [not_lt.mpr h]

theorem get_provider_frame (g : Globals) :
    (get_provider g).goto_tools_list = g.goto_tools_list ∧
    (get_provider g).last_goto_str = g.last_goto_str ∧
    (get_provider g).goto_provider = g.goto_provider ∧
    (get_provider g).get_coord_calls = g.get_coord_calls := by
  unfold get_provider
  split
  · cases hp : g.goto_provider with
    | none => simp [a_settings_get_string, hp]
    | some p =>
      have h := foreach_find_provider_frame p g.goto_tools_list
        { g with find_entry := -1, wanted_entry := -1 }
      simp only [hp] at h
      simp only [a_settings_get_string, hp, Option.isSome_some]
      exact ⟨h.1, h.2.2.1, h.2.2.2.1, h.2.2.2.2⟩
  · simp

theorem get_provider_nonneg (g : Globals) : 0 ≤ (get_provider g).last_goto_tool := by
  unfold get_provider
  split
  · cases hp : g.goto_provider with
    | none => simp [a_settings_get_string, hp]
    | some p =>
      simp only [a_settings_get_string, hp, Option.isSome_some]
      split <;> omega
  · omega

theorem g_list_nth_data_nil {α : Type} (n : Int) : g_list_nth_data ([] : List α) n = none := by
  unfold g_list_nth_data
  split <;> simp

/-- When the current index designates a tool, `vik_goto_place` calls it once. -/
theorem vik_goto_place_some (g : Globals) (name : CStr) (v : VikCoord) (tool : VikGotoTool)
    (h : g_list_nth_data (get_provider g).goto_tools_list (get_provider g).last_goto_tool
      = some tool) :
    vik_goto_place g name v =
      ({ get_provider g with get_coord_calls :=
          (get_provider g).get_coord_calls ++ [((get_provider g).last_goto_tool, name)] },
        decide ((tool.get_coord name v).1 = 0), (tool.get_coord name v).2) := by
  unfold vik_goto_place
  simp only
  split
  · rename_i h0
    rw [h0, g_list_nth_data_nil] at h
    cases h
  · simp only [h]
    split
    · rename_i hz; simp [hz]
    · rename_i hz; simp [hz]

/-- When the current index designates no tool, `vik_goto_place` calls none. -/
theorem vik_goto_place_none (g : Globals) (name : CStr) (v : VikCoord)
    (h : g_list_nth_data (get_provider g).goto_tools_list (get_provider g).last_goto_tool
      = none) :
    vik_goto_place g name v = (get_provider g, false, v) := by
  unfold vik_goto_place
  simp only
  split
  · rfl
  · simp only [h]

/-- The globals after `vik_goto_place`: those after `get_provider`, with at most
one more entry in the call log. -/
theorem vik_goto_place_globals (g : Globals) (name : CStr) (v : VikCoord) :
    (vik_goto_place g name v).1 = get_provider g ∨
    (vik_goto_place g name v).1 =
      { get_provider g with get_coord_calls :=
          (get_provider g).get_coord_calls ++ [((get_provider g).last_goto_tool, name)] } := by
  cases h : g_list_nth_data (get_provider g).goto_tools_list (get_provider g).last_goto_tool with
  | none => left; rw [vik_goto_place_none g name v h]
  | some tool => right; rw [vik_goto_place_some g name v tool h]

/-- A successful `vik_goto_place` made exactly one tool call, with its query. -/
theorem vik_goto_place_calls_of_true (g : Globals) (name : CStr) (v : VikCoord)
    (h : (vik_goto_place g name v).2.1 = true) :
    (vik_goto_place g name v).1.get_coord_calls =
      g.get_coord_calls ++ [((get_provider g).last_goto_tool, name)] := by
  have hf := (get_provider_frame g).2.2.2
  cases h1 : g_list_nth_data (get_provider g).goto_tools_list (get_provider g).last_goto_tool with
  | none => rw [vik_goto_place_none g name v h1] at h; cases h
  | some tool => rw [vik_goto_place_some g name v tool h1]; simp [hf]

/-- The answer of `vik_goto_place` is the same after an earlier lookup. -/
theorem vik_goto_place_again (g : Globals) (n1 n2 : CStr) (v1 v2 : VikCoord) :
    (vik_goto_place (vik_goto_place g n1 v1).1 n2 v2).2 = (vik_goto_place g n2 v2).2 := by
  have hnn := get_provider_nonneg g
  have key : ∀ g1 : Globals, get_provider g1 = g1 →
      g1.goto_tools_list = (get_provider g).goto_tools_list →
      g1.last_goto_tool = (get_provider g).last_goto_tool →
      (vik_goto_place g1 n2 v2).2 = (vik_goto_place g n2 v2).2 := by
    intro g1 e1 e2 e3
    cases h1 : g_list_nth_data (get_provider g).goto_tools_list
        (get_provider g).last_goto_tool with
    | none =>
      rw [vik_goto_place_none g n2 v2 h1, vik_goto_place_none g1 n2 v2 (by rw [e1, e2, e3, h1])]
    | some tool =>
      rw [vik_goto_place_some g n2 v2 tool h1,
        vik_goto_place_some g1 n2 v2 tool (by rw [e1, e2, e3, h1])]
  rcases vik_goto_place_globals g n1 v1 with h | h
  · rw [h]
    exact key _ (get_provider_of_nonneg _ hnn) rfl rfl
  · rw [h]
    exact key _ (get_provider_of_nonneg _ hnn) rfl rfl

/-- A successful `vik_goto_place` is the success of the tool at the current
index, and `*vcoord` is what that tool left in it. -/
theorem vik_goto_place_of_true (g : Globals) (name : CStr) (v : VikCoord)
    (h : (vik_goto_place g name v).2.1 = true) :
    ∃ tool, g_list_nth_data g.goto_tools_list (get_provider g).last_goto_tool = some tool ∧
      (tool.get_coord name v).1 = 0 ∧
      (vik_goto_place g name v).2.2 = (tool.get_coord name v).2 := by
  have hf := (get_provider_frame g).1
  cases h1 : g_list_nth_data (get_provider g).goto_tools_list (get_provider g).last_goto_tool with
  | none => rw [vik_goto_place_none g name v h1] at h; cases h
  | some tool =>
    rw [vik_goto_place_some g name v tool h1] at h ⊢
    rw [hf] at h1
    exact ⟨tool, h1, by simpa using h, rfl⟩

/-! ## Lemmas on the decision of `a_vik_goto_where_am_i` -/

/-- The country block gives up with `0` and no name, or answers `3` with the
country. -/
theorem try_country_cases (env : Env) (g : Globals) (f : Fields) (kc : VikCoord) :
    ((try_country env g f kc).result = 0 ∧ (try_country env g f kc).name = none) ∨
    ((try_country env g f kc).result = 3 ∧ (try_country env g f kc).name = f.country ∧
      f.country ≠ none) := by
  unfold try_country
  cases hc : f.country with
  | none => simp
  | some country =>
    simp only
    split
    · rcases hp : vik_goto_place g country kc with ⟨g1, b, c⟩
      cases b <;> simp
    · simp

/-- The country block gives up when the country is absent, is the sentinel or is
not resolved. -/
theorem try_country_fails (env : Env) (g : Globals) (f : Fields) (kc : VikCoord)
    (h : f.country = none ∨ f.country = some "(Unknown Country)".toList ∨
      ∃ c, f.country = some c ∧ (vik_goto_place g c kc).2.1 = false) :
    (try_country env g f kc).result = 0 ∧ (try_country env g f kc).name = none := by
  unfold try_country
  rcases h with h | h | ⟨c, h, hr⟩
  · simp [h]
  · simp [h]
  · simp only [h]
    split
    · rcases hp : vik_goto_place g c kc with ⟨g1, b, c1⟩
      rw [hp] at hr
      simp only at hr
      subst hr
      simp
    · simp

/-- The decision returns one of the four codes, with the matching name. -/
theorem locate_cases (env : Env) (g : Globals) (f : Fields) (cc kc : VikCoord) :
    ((locate env g f cc kc).result = 0 ∧ (locate env g f cc kc).name = none) ∨
    ((locate env g f cc kc).result = 1 ∧
      (locate env g f cc kc).name = some "Locality".toList) ∨
    ((locate env g f cc kc).result = 2 ∧ (locate env g f cc kc).name = f.city ∧
      f.city ≠ none) ∨
    ((locate env g f cc kc).result = 3 ∧ (locate env g f cc kc).name = f.country ∧
      f.country ≠ none) := by
  have tc : ∀ g1 : Globals,
      ((try_country env g1 f kc).result = 0 ∧ (try_country env g1 f kc).name = none) ∨
      ((try_country env g1 f kc).result = 1 ∧
        (try_country env g1 f kc).name = some "Locality".toList) ∨
      ((try_country env g1 f kc).result = 2 ∧ (try_country env g1 f kc).name = f.city ∧
        f.city ≠ none) ∨
      ((try_country env g1 f kc).result = 3 ∧ (try_country env g1 f kc).name = f.country ∧
        f.country ≠ none) := by
    intro g1
    rcases try_country_cases env g1 f kc with h | h
    · exact Or.inl h
    · exact Or.inr (Or.inr (Or.inr h))
  unfold locate
  split
  · split
    · right; left; simp
    · left; simp
  · cases hc : f.city with
    | none => simpa [hc] using tc g
    | some city =>
      simp only
      split
      · rcases hp : vik_goto_place g city cc with ⟨g1, b, c⟩
        cases b
        · simpa [hc] using tc g1
        · right; right; left; simp
      · simpa [hc] using tc g

/-! ## Lemmas on the search of the persisted label -/

/-- The loop over the registry counts every element in `find_entry` and leaves in
`wanted_entry` the position of the last element with the wanted label. -/
theorem foreach_find_provider_entries (p : CStr) (l : List VikGotoTool) (g : Globals) :
    (foreach_find_provider p l g).find_entry = g.find_entry + l.length ∧
    ((∀ t ∈ l, t.label ≠ p) → (foreach_find_provider p l g).wanted_entry = g.wanted_entry) ∧
    ((∃ t ∈ l, t.label = p) → ∃ j t, l.get? j = some t ∧ t.label = p ∧
      (∀ m t2, j < m → l.get? m = some t2 → t2.label ≠ p) ∧
      (foreach_find_provider p l g).wanted_entry = g.find_entry + 1 + j) := by
  induction l generalizing g with
  | nil => simp [foreach_find_provider]
  | cons t rest ih =>
    obtain ⟨ih1, ih2, ih3⟩ := ih (find_provider g t p)
    have hfe : (find_provider g t p).find_entry = g.find_entry + 1 := by
      unfold find_provider; split <;> rfl
    have hwe : (find_provider g t p).wanted_entry =
        if t.label = p then g.find_entry + 1 else g.wanted_entry := by
      unfold find_provider; split <;> rfl
    simp only [foreach_find_provider]
    refine ⟨?_, ?_, ?_⟩
    · rw [ih1, hfe, List.length_cons]; push_cast; ring
    · intro hno
      have h1 : t.label ≠ p := hno t (List.mem_cons_self _ _)
      rw [ih2 (fun t2 ht2 => hno t2 (List.mem_cons_of_mem _ ht2)), hwe, if_neg h1]
    · intro _
      by_cases hrest : ∃ t2 ∈ rest, t2.label = p
      · obtain ⟨j, t2, hj, hl, hlast, hw⟩ := ih3 hrest
        refine ⟨j + 1, t2, by simpa using hj, hl, ?_, ?_⟩
        · intro m t3 hm hget
          cases m with
          | zero => omega
          | succ m => exact hlast m t3 (by omega) (by simpa using hget)
        · rw [hw, hfe]; push_cast; ring
      · have hno : ∀ t2 ∈ rest, t2.label ≠ p := fun t2 ht2 hl => hrest ⟨t2, ht2, hl⟩
        have ht : t.label = p := by
          rename_i hex
          obtain ⟨t2, ht2, hl⟩ := hex
          rcases List.mem_cons.mp ht2 with h | h
          · rw [← h]; exact hl
          · exact absurd hl (hno t2 h)
        refine ⟨0, t, by simp, ht, ?_, ?_⟩
        · intro m t3 hm hget
          cases m with
          | zero => omega
          | succ m =>
            have : rest.get? m = some t3 := by simpa using hget
            exact hno t3 (List.get?_mem this)
        · rw [ih2 hno, hwe, if_pos ht]; simp

/-- The index `get_provider` computes when none is selected yet: 0 without a
setting or without a tool of that label, else the position of the last tool
whose label is the setting. -/
theorem get_provider_fresh (g : Globals) (hneg : g.last_goto_tool < 0) :
    (g.goto_provider = none → (get_provider g).last_goto_tool = 0) ∧
    (∀ p, g.goto_provider = some p → (∀ t ∈ g.goto_tools_list, t.label ≠ p) →
      (get_provider g).last_goto_tool = 0) ∧
    (∀ p, g.goto_provider = some p → (∃ t ∈ g.goto_tools_list, t.label = p) →
      ∃ j t, g.goto_tools_list.get? j = some t ∧ t.label = p ∧
        (∀ m t2, j < m → g.goto_tools_list.get? m = some t2 → t2.label ≠ p) ∧
        (get_provider g).last_goto_tool = (j : Int)) := by
  refine ⟨?_, ?_, ?_⟩
  · intro hp
    unfold get_provider
    rw [if_pos hneg]
    simp [a_settings_get_string, hp]
  · intro p hp hno
    have h := (foreach_find_provider_entries p g.goto_tools_list
      { g with find_entry := -1, wanted_entry := -1 }).2.1 hno
    unfold get_provider
    rw [if_pos hneg]
    simp only [a_settings_get_string, hp, Option.isSome_some]
    simp only [hp] at h
    rw [h]
    simp
  · intro p hp hex
    obtain ⟨j, t, hj, hl, hlast, hw⟩ := (foreach_find_provider_entries p g.goto_tools_list
      { g with find_entry := -1, wanted_entry := -1 }).2.2 hex
    refine ⟨j, t, hj, hl, hlast, ?_⟩
    unfold get_provider
    rw [if_pos hneg]
    simp only [a_settings_get_string, hp, Option.isSome_some]
    simp only [hp] at hw
    rw [hw]
    simp only [neg_add_cancel, zero_add]
    rw [if_neg (by omega)]

/-- The fill loop appends the rows of the candidates, in their order. -/
theorem append_candidates_eq (cands : List VikGotoCandidate) (store : List Row) :
    append_candidates cands store = store ++ cands.map candidate_row := by
  induction cands generalizing store with
  | nil => simp [append_candidates]
  | cons c rest ih => simp [append_candidates, ih]

/-- An absent latitude or longitude marker leaves the `0.0` of lines 681-682. -/
theorem extract_absent_marker (env : Env) (text : List Char) (f : Fields)
    (hx : extract env text = .ok f) :
    (g_strstr_len text JSON_LATITUDE_PATTERN = none → f.ll.lat = 0) ∧
    (g_strstr_len text JSON_LONGITUDE_PATTERN = none → f.ll.lon = 0) := by
  unfold extract at hx
  cases h1 : extract_quoted text JSON_COUNTRY_PATTERN with
  | error e => simp [h1] at hx
  | ok country =>
    cases h2 : extract_quoted text JSON_CITY_PATTERN with
    | error e => simp [h1, h2] at hx
    | ok city =>
      cases h3 : extract_number text JSON_LATITUDE_PATTERN with
      | error e => simp [h1, h2, h3] at hx
      | ok lat_buf =>
        cases h4 : extract_number text JSON_LONGITUDE_PATTERN with
        | error e => simp [h1, h2, h3, h4] at hx
        | ok lon_buf =>
          simp only [h1, h2, h3, h4, Except.ok.injEq] at hx
          subst hx
          constructor
          · intro hnone
            simp only [extract_number, hnone, Except.ok.injEq] at h3
            subst h3
            rfl
          · intro hnone
            simp only [extract_number, hnone, Except.ok.injEq] at h4
            subst h4
            rfl

/-- A position that is non-zero on both axes and outside the valid range ends the
decision with `0` and no name; the city and country blocks are not entered. -/
theorem locate_out_of_range (env : Env) (g : Globals) (f : Fields) (cc kc : VikCoord)
    (hnz : f.ll.lat ≠ 0 ∧ f.ll.lon ≠ 0)
    (hout : ¬ (f.ll.lat > -90 ∧ f.ll.lat < 90 ∧ f.ll.lon > -180 ∧ f.ll.lon < 180)) :
    locate env g f cc kc = { result := 0, name := none, ll := f.ll, globals := g } := by
  unfold locate
  rw [if_pos hnz, if_neg hout]

/-- After a dialog search with provider `i`, `vik_goto_place` calls provider `i`. -/
theorem dialog_search_sets_current (g : Globals) (data : VikGotoSearchWinData) (i : Nat)
    (tool_i : VikGotoTool)
    (hi : g.goto_tools_list.get? i = some tool_i)
    (hact : data.tool_list_active = (i : Int)) :
    ∃ g1 data1, vik_goto_search_response g data .accept = some (g1, data1) ∧
      ∀ name v, (vik_goto_place g1 name v).1.get_coord_calls =
        g.get_coord_calls ++ [((i : Int), name)] := by
  have hnth : g_list_nth_data g.goto_tools_list (i : Int) = some tool_i := by
    unfold g_list_nth_data
    rw [if_neg (by omega)]
    simpa using hi
  have key : ∀ g1 : Globals, g1.goto_tools_list = g.goto_tools_list →
      g1.last_goto_tool = (i : Int) → g1.get_coord_calls = g.get_coord_calls →
      ∀ name v, (vik_goto_place g1 name v).1.get_coord_calls =
        g.get_coord_calls ++ [((i : Int), name)] := by
    intro g1 e1 e2 e3 name v
    have hfix : get_provider g1 = g1 := get_provider_of_nonneg g1 (by omega)
    have h1 : g_list_nth_data (get_provider g1).goto_tools_list
        (get_provider g1).last_goto_tool = some tool_i := by
      rw [hfix, e1, e2, hnth]
    rw [vik_goto_place_some g1 name v tool_i h1, hfix]
    simp [e2, e3]
  unfold vik_goto_search_response
  simp only [hact, hnth, a_settings_set_string]
  split
  · refine ⟨_, _, rfl, key _ ?_ ?_ ?_⟩ <;> (split <;> rfl)
  · refine ⟨_, _, rfl, key _ ?_ ?_ ?_⟩ <;> (split <;> rfl)

/-! ## The claims -/

/-- C1: for every payload whose extracted latitude and longitude are both non-zero
and lie strictly inside (-90, 90) and (-180, 180), `a_vik_goto_where_am_i`
returns 1, leaves in `ll` the parsed latitude and longitude, sets `name` to
"Locality", and leaves the globals as they were, the log of tool calls included:
no provider is called, whatever the city and the country of the payload. -/
theorem where_am_i_exact (env : Env) (g : Globals) (text : List Char) (ll : LatLon)
    (cc kc : VikCoord) (f : Fields)
    (hx : extract env text = .ok f)
    (hlat : f.ll.lat ≠ 0) (hlon : f.ll.lon ≠ 0)
    (hlat_lo : -90 < f.ll.lat) (hlat_hi : f.ll.lat < 90)
    (hlon_lo : -180 < f.ll.lon) (hlon_hi : f.ll.lon < 180) :
    a_vik_goto_where_am_i env g (.mapped text) ll cc kc =
      .ok { result := 1, name := some "Locality".toList, ll := f.ll, globals := g } := by
  simp only [a_vik_goto_where_am_i, hx, locate]
  rw [if_pos ⟨hlat, hlon⟩, if_pos ⟨hlat_lo, hlat_hi, hlon_lo, hlon_hi⟩]

/-- Instance of C1: a payload with latitude 48.85 and longitude -2.35, a city and
a country. -/
theorem where_am_i_exact_witness :
    extract sample_env payload_exact =
      .ok { country := some "France".toList, city := some "Paris".toList,
            ll := { lat := 977 / 20, lon := -47 / 20 } } ∧
    a_vik_goto_where_am_i sample_env (sample_globals [atlas] none) (.mapped payload_exact)
      { lat := 7, lon := 7 } paris france =
      .ok { result := 1, name := some "Locality".toList,
            ll := { lat := 977 / 20, lon := -47 / 20 },
            globals := sample_globals [atlas] none } :=
  ⟨by decide!,
   where_am_i_exact sample_env (sample_globals [atlas] none) payload_exact
     { lat := 7, lon := 7 } paris france
     { country := some "France".toList, city := some "Paris".toList,
       ll := { lat := 977 / 20, lon := -47 / 20 } }
     (by decide!) (by decide!) (by decide!) (by decide!) (by decide!) (by decide!) (by decide!)⟩

/-- C2, the code at the failing input: the payload carries latitude 95.5 and
longitude 2.35 (both non-zero, the latitude outside (-90, 90)) and the city
"Paris", which the current provider resolves; the function returns 0 with no
name and calls no provider, where the claim has it return 2 with the city. -/
theorem where_am_i_out_of_range_skips_city :
    extract sample_env payload_out_of_range =
      .ok { country := some "France".toList, city := some "Paris".toList,
            ll := { lat := 191 / 2, lon := 47 / 20 } } ∧
    (vik_goto_place (sample_globals [atlas] none) "Paris".toList paris).2 = (true, paris) ∧
    observe (a_vik_goto_where_am_i sample_env (sample_globals [atlas] none)
        (.mapped payload_out_of_range) { lat := 7, lon := 7 } paris france) =
      some { result := 0, name := none, ll := { lat := 191 / 2, lon := 47 / 20 },
             get_coord_calls := [] } := by
  refine ⟨by decide!, by decide!, by decide!⟩

/-- C3: for every payload in which the latitude or the longitude is absent or
parses to zero, and whose city differs from "(Unknown city)" and is resolved by
the current provider, `a_vik_goto_where_am_i` returns 2, sets `ll` to the
coordinate the tool at the current index produced for the city, sets `name` to
the city, and makes that one tool call only: the country is not looked up. -/
theorem where_am_i_city (env : Env) (g : Globals) (text : List Char) (ll : LatLon)
    (cc kc : VikCoord) (f : Fields) (city : CStr)
    (hx : extract env text = .ok f)
    (hzero : f.ll.lat = 0 ∨ f.ll.lon = 0)
    (hcity : f.city = some city)
    (hne : city ≠ "(Unknown city)".toList)
    (hres : (vik_goto_place g city cc).2.1 = true) :
    ∃ r tool, a_vik_goto_where_am_i env g (.mapped text) ll cc kc = .ok r ∧
      r.result = 2 ∧
      g_list_nth_data g.goto_tools_list (get_provider g).last_goto_tool = some tool ∧
      (tool.get_coord city cc).1 = 0 ∧
      r.ll = env.vik_coord_to_latlon (tool.get_coord city cc).2 ∧
      r.name = some city ∧
      r.globals.get_coord_calls =
        g.get_coord_calls ++ [((get_provider g).last_goto_tool, city)] := by
  obtain ⟨tool, ht, hz, hc⟩ := vik_goto_place_of_true g city cc hres
  have hcalls := vik_goto_place_calls_of_true g city cc hres
  have hnot : ¬ (f.ll.lat ≠ 0 ∧ f.ll.lon ≠ 0) := by
    rcases hzero with h | h
    · exact fun hh => hh.1 h
    · exact fun hh => hh.2 h
  rcases hp : vik_goto_place g city cc with ⟨g1, b, c⟩
  rw [hp] at hres hc hcalls
  simp only at hres hc hcalls
  subst hres
  refine ⟨{ result := 2, name := some city, ll := env.vik_coord_to_latlon c, globals := g1 },
    tool, ?_, rfl, ht, hz, by rw [hc], rfl, hcalls⟩
  simp only [a_vik_goto_where_am_i, hx, locate]
  rw [if_neg hnot]
  simp only [hcity]
  rw [if_pos hne, hp]

/-- Instance of C3: latitude and longitude "0", city "Paris". -/
theorem where_am_i_city_witness :
    ∃ r tool, a_vik_goto_where_am_i sample_env (sample_globals [atlas] none)
        (.mapped payload_city) { lat := 7, lon := 7 } france france = .ok r ∧
      r.result = 2 ∧
      g_list_nth_data (sample_globals [atlas] none).goto_tools_list
        (get_provider (sample_globals [atlas] none)).last_goto_tool = some tool ∧
      (tool.get_coord "Paris".toList france).1 = 0 ∧
      r.ll = sample_env.vik_coord_to_latlon (tool.get_coord "Paris".toList france).2 ∧
      r.name = some "Paris".toList ∧
      r.globals.get_coord_calls =
        (sample_globals [atlas] none).get_coord_calls ++
          [((get_provider (sample_globals [atlas] none)).last_goto_tool, "Paris".toList)] :=
  where_am_i_city sample_env (sample_globals [atlas] none) payload_city
    { lat := 7, lon := 7 } france france
    { country := some "France".toList, city := some "Paris".toList, ll := { lat := 0, lon := 0 } }
    "Paris".toList (by decide!) (by decide!) (by decide!) (by decide!) (by decide!)

/-- C4, amended: for every payload in the branch taken when the latitude or the
longitude is zero or absent, whose city is exactly "(Unknown city)" and whose
country differs from "(Unknown Country)" and is resolved by the current
provider, `a_vik_goto_where_am_i` returns 3 with the coordinate the tool
produced for the country and `name` equal to the country; the tool is called
exactly once, with the country string; that query is never "(Unknown Country)",
and it is "(Unknown city)" only if the country field of the payload is that
text. -/
theorem where_am_i_country (env : Env) (g : Globals) (text : List Char) (ll : LatLon)
    (cc kc : VikCoord) (f : Fields) (country : CStr)
    (hx : extract env text = .ok f)
    (hzero : f.ll.lat = 0 ∨ f.ll.lon = 0)
    (hcity : f.city = some "(Unknown city)".toList)
    (hcountry : f.country = some country)
    (hne : country ≠ "(Unknown Country)".toList)
    (hres : (vik_goto_place g country kc).2.1 = true) :
    ∃ r tool, a_vik_goto_where_am_i env g (.mapped text) ll cc kc = .ok r ∧
      r.result = 3 ∧
      g_list_nth_data g.goto_tools_list (get_provider g).last_goto_tool = some tool ∧
      (tool.get_coord country kc).1 = 0 ∧
      r.ll = env.vik_coord_to_latlon (tool.get_coord country kc).2 ∧
      r.name = some country ∧
      r.globals.get_coord_calls =
        g.get_coord_calls ++ [((get_provider g).last_goto_tool, country)] ∧
      (∀ call ∈ [((get_provider g).last_goto_tool, country)],
        call.2 ≠ "(Unknown Country)".toList ∧
        (country ≠ "(Unknown city)".toList → call.2 ≠ "(Unknown city)".toList)) := by
  obtain ⟨tool, ht, hz, hc⟩ := vik_goto_place_of_true g country kc hres
  have hcalls := vik_goto_place_calls_of_true g country kc hres
  have hnot : ¬ (f.ll.lat ≠ 0 ∧ f.ll.lon ≠ 0) := by
    rcases hzero with h | h
    · exact fun hh => hh.1 h
    · exact fun hh => hh.2 h
  rcases hp : vik_goto_place g country kc with ⟨g1, b, c⟩
  rw [hp] at hres hc hcalls
  simp only at hres hc hcalls
  subst hres
  refine ⟨{ result := 3, name := some country, ll := env.vik_coord_to_latlon c, globals := g1 },
    tool, ?_, rfl, ht, hz, by rw [hc], rfl, hcalls, ?_⟩
  · simp only [a_vik_goto_where_am_i, hx, locate]
    rw [if_neg hnot]
    simp only [hcity]
    rw [if_neg (by simp)]
    simp only [try_country, hcountry]
    rw [if_pos hne, hp]
  · intro call hmem
    rw [List.mem_singleton] at hmem
    subst hmem
    exact ⟨hne, fun h => h⟩

/-- Instance of C4, amended: city "(Unknown city)", country "France", no position. -/
theorem where_am_i_country_witness :
    ∃ r tool, a_vik_goto_where_am_i sample_env (sample_globals [atlas] none)
        (.mapped payload_country) { lat := 7, lon := 7 } paris paris = .ok r ∧
      r.result = 3 ∧
      g_list_nth_data (sample_globals [atlas] none).goto_tools_list
        (get_provider (sample_globals [atlas] none)).last_goto_tool = some tool ∧
      (tool.get_coord "France".toList paris).1 = 0 ∧
      r.ll = sample_env.vik_coord_to_latlon (tool.get_coord "France".toList paris).2 ∧
      r.name = some "France".toList ∧
      r.globals.get_coord_calls =
        (sample_globals [atlas] none).get_coord_calls ++
          [((get_provider (sample_globals [atlas] none)).last_goto_tool, "France".toList)] ∧
      (∀ call ∈ [((get_provider (sample_globals [atlas] none)).last_goto_tool,
          "France".toList)],
        call.2 ≠ "(Unknown Country)".toList ∧
        ("France".toList ≠ "(Unknown city)".toList → call.2 ≠ "(Unknown city)".toList)) :=
  where_am_i_country sample_env (sample_globals [atlas] none) payload_country
    { lat := 7, lon := 7 } paris paris
    { country := some "France".toList, city := some "(Unknown city)".toList,
      ll := { lat := 0, lon := 0 } }
    "France".toList (by decide!) (by decide!) (by decide!) (by decide!) (by decide!)
    (by decide!)

/-- C4 as stated fails: the payload has city "(Unknown city)", country
"(Unknown city)" (which differs from "(Unknown Country)") and no position, and
the current provider resolves that text; the function returns 3 and its one tool
call has the sentinel "(Unknown city)" as query. -/
theorem where_am_i_queries_city_sentinel :
    extract sample_env payload_sentinel_country =
      .ok { country := some "(Unknown city)".toList, city := some "(Unknown city)".toList,
            ll := { lat := 0, lon := 0 } } ∧
    "(Unknown city)".toList ≠ "(Unknown Country)".toList ∧
    (vik_goto_place (sample_globals [atlas] none) "(Unknown city)".toList paris).2.1 = true ∧
    observe (a_vik_goto_where_am_i sample_env (sample_globals [atlas] none)
        (.mapped payload_sentinel_country) { lat := 7, lon := 7 } paris paris) =
      some { result := 3, name := some "(Unknown city)".toList,
             ll := { lat := 46, lon := 2 },
             get_coord_calls := [(0, "(Unknown city)".toList)] } := by
  refine ⟨by decide!, by decide!, by decide!, by decide!⟩

/-- C5: `a_vik_goto_where_am_i` returns 0 with `name` `NULL` when no stage
succeeds: the download failed; the file could not be mapped; or the test for an
exact position fails and each of the city and the country is absent, equal to
its sentinel, or not resolved by the provider.  Conversely, on every run that
returns, the value is 0, 1, 2 or 3, and `name` is `NULL` exactly when the value
is 0: it is "Locality" for 1, the extracted city for 2, the extracted country
for 3.  The function returns whenever the four extractions stay inside the
payload and the buffers. -/
theorem where_am_i_none_and_codes (env : Env) (g : Globals) (ll : LatLon) (cc kc : VikCoord) :
    a_vik_goto_where_am_i env g .download_failed ll cc kc =
      .ok { result := 0, name := none, ll := ll, globals := g } ∧
    a_vik_goto_where_am_i env g .map_failed ll cc kc =
      .ok { result := 0, name := none, ll := { lat := 0, lon := 0 }, globals := g } ∧
    (∀ text f, extract env text = .ok f →
      ¬ (f.ll.lat ≠ 0 ∧ f.ll.lon ≠ 0 ∧
          -90 < f.ll.lat ∧ f.ll.lat < 90 ∧ -180 < f.ll.lon ∧ f.ll.lon < 180) →
      (f.city = none ∨ f.city = some "(Unknown city)".toList ∨
        ∃ c, f.city = some c ∧ (vik_goto_place g c cc).2.1 = false) →
      (f.country = none ∨ f.country = some "(Unknown Country)".toList ∨
        ∃ c, f.country = some c ∧ (vik_goto_place g c kc).2.1 = false) →
      ∃ r, a_vik_goto_where_am_i env g (.mapped text) ll cc kc = .ok r ∧
        r.result = 0 ∧ r.name = none) ∧
    (∀ payload r, a_vik_goto_where_am_i env g payload ll cc kc = .ok r →
      (r.result = 0 ∨ r.result = 1 ∨ r.result = 2 ∨ r.result = 3) ∧
      (r.name = none ↔ r.result = 0) ∧
      (r.result = 1 → r.name = some "Locality".toList) ∧
      (r.result = 2 → ∃ text f city, payload = .mapped text ∧ extract env text = .ok f ∧
        f.city = some city ∧ r.name = some city) ∧
      (r.result = 3 → ∃ text f country, payload = .mapped text ∧ extract env text = .ok f ∧
        f.country = some country ∧ r.name = some country)) ∧
    (∀ text f, extract env text = .ok f →
      ∃ r, a_vik_goto_where_am_i env g (.mapped text) ll cc kc = .ok r) := by
  refine ⟨rfl, rfl, ?_, ?_, ?_⟩
  · intro text f hx hexact hcity hcountry
    refine ⟨locate env g f cc kc, by simp only [a_vik_goto_where_am_i, hx], ?_⟩
    have tc : ∀ g1 : Globals, (g1 = g ∨ ∃ n v, g1 = (vik_goto_place g n v).1) →
        (try_country env g1 f kc).result = 0 ∧ (try_country env g1 f kc).name = none := by
      intro g1 hg1
      apply try_country_fails
      rcases hcountry with h | h | ⟨c, h, hr⟩
      · exact Or.inl h
      · exact Or.inr (Or.inl h)
      · refine Or.inr (Or.inr ⟨c, h, ?_⟩)
        rcases hg1 with rfl | ⟨n, v, rfl⟩
        · exact hr
        · have := vik_goto_place_again g n c v kc
          rw [this]
          exact hr
    unfold locate
    split
    · rename_i hnz
      split
      · rename_i hrange
        exact absurd ⟨hnz.1, hnz.2, hrange⟩ hexact
      · exact ⟨rfl, rfl⟩
    · rcases hcity with h | h | ⟨c, h, hr⟩
      · simp only [h]
        exact tc g (Or.inl rfl)
      · simp only [h]
        rw [if_neg (by simp)]
        exact tc g (Or.inl rfl)
      · simp only [h]
        split
        · rcases hp : vik_goto_place g c cc with ⟨g1, b, c1⟩
          rw [hp] at hr
          simp only at hr
          subst hr
          simp only
          exact tc g1 (Or.inr ⟨c, cc, by rw [hp]⟩)
        · exact tc g (Or.inl rfl)
  · intro payload r hr
    cases payload with
    | download_failed =>
      simp only [a_vik_goto_where_am_i, Except.ok.injEq] at hr
      subst hr
      simp
    | map_failed =>
      simp only [a_vik_goto_where_am_i, Except.ok.injEq] at hr
      subst hr
      simp
    | mapped text =>
      cases hx : extract env text with
      | error e => simp [a_vik_goto_where_am_i, hx] at hr
      | ok f =>
        simp only [a_vik_goto_where_am_i, hx, Except.ok.injEq] at hr
        subst hr
        rcases locate_cases env g f cc kc with h | h | h | h
        · simp [h.1, h.2]
        · simp [h.1, h.2]
        · obtain ⟨h1, h2, h3⟩ := h
          obtain ⟨city, hcity⟩ := Option.ne_none_iff_exists'.mp h3
          refine ⟨by simp [h1], by simp [h1, h2, h3], by simp [h1], ?_, by simp [h1]⟩
          intro _
          exact ⟨text, f, city, rfl, hx, hcity, by rw [h2, hcity]⟩
        · obtain ⟨h1, h2, h3⟩ := h
          obtain ⟨country, hcountry⟩ := Option.ne_none_iff_exists'.mp h3
          refine ⟨by simp [h1], by simp [h1, h2, h3], by simp [h1], by simp [h1], ?_⟩
          intro _
          exact ⟨text, f, country, rfl, hx, hcountry, by rw [h2, hcountry]⟩
  · intro text f hx
    exact ⟨locate env g f cc kc, by simp only [a_vik_goto_where_am_i, hx]⟩

/-- Instance of C5: a payload with both sentinels and no position gives 0 and no
name, without any tool call. -/
theorem where_am_i_none_witness :
    extract sample_env payload_unknown =
      .ok { country := some "(Unknown Country)".toList,
            city := some "(Unknown city)".toList, ll := { lat := 0, lon := 0 } } ∧
    ∃ r, a_vik_goto_where_am_i sample_env (sample_globals [atlas] none)
        (.mapped payload_unknown) { lat := 7, lon := 7 } paris paris = .ok r ∧
      r.result = 0 ∧ r.name = none :=
  ⟨by decide!,
   (where_am_i_none_and_codes sample_env (sample_globals [atlas] none)
      { lat := 7, lon := 7 } paris paris).2.2.1 payload_unknown
      { country := some "(Unknown Country)".toList,
        city := some "(Unknown city)".toList, ll := { lat := 0, lon := 0 } }
      (by decide!) (by decide!) (Or.inr (Or.inl rfl)) (Or.inr (Or.inl rfl))⟩

/-- C6: for every registry of N >= 1 providers and no provider selected yet
(`last_goto_tool < 0`), `get_provider` leaves the registry as it is and sets the
current index to a value in [0, N); that index designates a registered provider
whose label equals the string stored under "goto_provider" when such a provider
exists, and it is 0 when the setting is missing or matches no label. -/
theorem get_provider_selects (g : Globals)
    (hN : 1 ≤ g.goto_tools_list.length) (hneg : g.last_goto_tool < 0) :
    (get_provider g).goto_tools_list = g.goto_tools_list ∧
    0 ≤ (get_provider g).last_goto_tool ∧
    (get_provider g).last_goto_tool < g.goto_tools_list.length ∧
    (∀ p, g.goto_provider = some p → (∃ t ∈ g.goto_tools_list, t.label = p) →
      ∃ tool, g_list_nth_data g.goto_tools_list (get_provider g).last_goto_tool = some tool ∧
        tool.label = p) ∧
    ((g.goto_provider = none ∨
        ∃ p, g.goto_provider = some p ∧ ∀ t ∈ g.goto_tools_list, t.label ≠ p) →
      (get_provider g).last_goto_tool = 0) := by
  obtain ⟨h1, h2, h3⟩ := get_provider_fresh g hneg
  have hzero : (g.goto_provider = none ∨
      ∃ p, g.goto_provider = some p ∧ ∀ t ∈ g.goto_tools_list, t.label ≠ p) →
      (get_provider g).last_goto_tool = 0 := by
    rintro (h | ⟨p, hp, hno⟩)
    · exact h1 h
    · exact h2 p hp hno
  refine ⟨(get_provider_frame g).1, get_provider_nonneg g, ?_, ?_, hzero⟩
  · cases hp : g.goto_provider with
    | none => rw [h1 hp]; omega
    | some p =>
      by_cases hex : ∃ t ∈ g.goto_tools_list, t.label = p
      · obtain ⟨j, t, hj, _, _, hidx⟩ := h3 p hp hex
        have hlt : j < g.goto_tools_list.length := by
          by_contra hge
          rw [List.get?_eq_none.mpr (by omega)] at hj
          cases hj
        rw [hidx]
        exact_mod_cast hlt
      · have hno : ∀ t ∈ g.goto_tools_list, t.label ≠ p := fun t ht hl => hex ⟨t, ht, hl⟩
        rw [h2 p hp hno]; omega
  · intro p hp hex
    obtain ⟨j, t, hj, hl, _, hidx⟩ := h3 p hp hex
    refine ⟨t, ?_, hl⟩
    rw [hidx]
    unfold g_list_nth_data
    rw [if_neg (by omega)]
    simpa using hj

/-- Instance of C6: providers "A" and "B", setting "B", nothing selected yet. -/
theorem get_provider_selects_witness :
    (get_provider (sample_globals tools_a_b (some "B".toList))).last_goto_tool = 1 ∧
    (get_provider (sample_globals tools_a_b (some "B".toList))).last_goto_tool
      < (sample_globals tools_a_b (some "B".toList)).goto_tools_list.length ∧
    (get_provider (sample_globals tools_a_b none)).last_goto_tool = 0 :=
  ⟨by decide,
   (get_provider_selects (sample_globals tools_a_b (some "B".toList))
      (by decide) (by decide)).2.2.1,
   (get_provider_selects (sample_globals tools_a_b none) (by decide) (by decide)).2.2.2.2
      (Or.inl rfl)⟩

/-- C7, amended: for every registry and every provider index i chosen in a search
(`vik_goto_search_response` with ACCEPT, which stores the label of provider i
under "goto_provider"), a fresh selection state over the same registry that
reads the same key makes `get_provider` select the last registered provider
whose label is that of provider i; this is provider i again whenever no provider
registered after it carries the same label. -/
theorem provider_round_trip (g : Globals) (data : VikGotoSearchWinData) (i : Nat)
    (tool_i : VikGotoTool)
    (hi : g.goto_tools_list.get? i = some tool_i)
    (hact : data.tool_list_active = (i : Int)) :
    ∃ g1 data1, vik_goto_search_response g data .accept = some (g1, data1) ∧
      g1.goto_tools_list = g.goto_tools_list ∧
      g1.goto_provider = some tool_i.label ∧
      ∀ fresh : Globals, fresh.goto_tools_list = g1.goto_tools_list →
        fresh.goto_provider = g1.goto_provider → fresh.last_goto_tool < 0 →
        ∃ (k : Nat) (tool_k : VikGotoTool), (get_provider fresh).last_goto_tool = (k : Int) ∧
          g.goto_tools_list.get? k = some tool_k ∧ tool_k.label = tool_i.label ∧
          (∀ m t, k < m → g.goto_tools_list.get? m = some t → t.label ≠ tool_i.label) ∧
          ((∀ m t, i < m → g.goto_tools_list.get? m = some t → t.label ≠ tool_i.label) →
            k = i) := by
  have hnth : g_list_nth_data g.goto_tools_list (i : Int) = some tool_i := by
    unfold g_list_nth_data
    rw [if_neg (by omega)]
    simpa using hi
  have hfresh : ∀ (fresh : Globals), fresh.goto_tools_list = g.goto_tools_list →
      fresh.goto_provider = some tool_i.label → fresh.last_goto_tool < 0 →
      ∃ (k : Nat) (tool_k : VikGotoTool), (get_provider fresh).last_goto_tool = (k : Int) ∧
        g.goto_tools_list.get? k = some tool_k ∧ tool_k.label = tool_i.label ∧
        (∀ m t, k < m → g.goto_tools_list.get? m = some t → t.label ≠ tool_i.label) ∧
        ((∀ m t, i < m → g.goto_tools_list.get? m = some t → t.label ≠ tool_i.label) →
          k = i) := by
    intro fresh hreg hkey hneg
    have hex : ∃ t ∈ fresh.goto_tools_list, t.label = tool_i.label := by
      rw [hreg]
      exact ⟨tool_i, List.get?_mem hi, rfl⟩
    obtain ⟨k, tk, hk, hl, hlast, hidx⟩ := (get_provider_fresh fresh hneg).2.2 _ hkey hex
    rw [hreg] at hk hlast
    refine ⟨k, tk, hidx, hk, hl, hlast, ?_⟩
    intro hnone
    rcases Nat.lt_trichotomy k i with h | h | h
    · exact absurd rfl (hlast i tool_i h hi)
    · exact h
    · exact absurd hl (hnone k tk h hk)
  unfold vik_goto_search_response
  simp only [hact, hnth, a_settings_set_string]
  split
  · refine ⟨_, _, rfl, ?_, ?_, ?_⟩
    · split <;> rfl
    · split <;> rfl
    · intro fresh hreg hkey hneg
      refine hfresh fresh (hreg.trans ?_) (hkey.trans ?_) hneg
      · split <;> rfl
      · split <;> rfl
  · refine ⟨_, _, rfl, ?_, ?_, ?_⟩
    · split <;> rfl
    · split <;> rfl
    · intro fresh hreg hkey hneg
      refine hfresh fresh (hreg.trans ?_) (hkey.trans ?_) hneg
      · split <;> rfl
      · split <;> rfl

/-- Instance of C7, amended: providers "A" and "B", current set to "B" by a
search, and a fresh read of the key selects "B" again. -/
theorem provider_round_trip_witness :
    (get_provider (sample_globals tools_a_b (some "B".toList))).last_goto_tool = 1 ∧
    ∃ g1 data1, vik_goto_search_response (sample_globals tools_a_b none) (sample_dialog 1)
        .accept = some (g1, data1) ∧
      g1.goto_tools_list = (sample_globals tools_a_b none).goto_tools_list ∧
      g1.goto_provider = some "B".toList ∧
      ∀ fresh : Globals, fresh.goto_tools_list = g1.goto_tools_list →
        fresh.goto_provider = g1.goto_provider → fresh.last_goto_tool < 0 →
        ∃ (k : Nat) (tool_k : VikGotoTool), (get_provider fresh).last_goto_tool = (k : Int) ∧
          (sample_globals tools_a_b none).goto_tools_list.get? k = some tool_k ∧
          tool_k.label = "B".toList ∧
          (∀ m t, k < m → (sample_globals tools_a_b none).goto_tools_list.get? m = some t →
            t.label ≠ "B".toList) ∧
          ((∀ m t, 1 < m → (sample_globals tools_a_b none).goto_tools_list.get? m = some t →
            t.label ≠ "B".toList) → k = 1) :=
  ⟨by decide,
   provider_round_trip (sample_globals tools_a_b none) (sample_dialog 1) 1
     (sample_tool "B".toList [("Paris".toList, france)]) rfl rfl⟩

/-- C7 as stated fails: two different providers are registered under the label
"A"; a search with provider 0 stores "A", and a fresh selection state that reads
the key selects provider 1, whose answers differ from those of provider 0. -/
theorem round_trip_duplicate_label :
    (vik_goto_search_response (sample_globals tools_a_a none) (sample_dialog 0) .accept).map
      (fun r => (r.1.last_goto_tool, r.1.goto_provider)) = some (0, some "A".toList) ∧
    (vik_goto_search_response (sample_globals tools_a_a none) (sample_dialog 0) .accept).map
      (fun r => (get_provider { r.1 with last_goto_tool := -1 }).last_goto_tool) = some 1 ∧
    (tools_a_a.get? 0).map (fun t => t.get_coord "Paris".toList france) = some (0, paris) ∧
    (tools_a_a.get? 1).map (fun t => t.get_coord "Paris".toList france) = some (0, france) := by
  refine ⟨by decide, by decide, by decide!, by decide!⟩

/-- C8: `vik_goto_place` returns TRUE if and only if the registry is not empty,
the current index (as `get_provider` leaves it) designates a registered provider
and the `get_coord` of that provider returns 0; the coordinate written is then
the one that provider produced.  On an empty registry it returns FALSE and the
log of tool calls is unchanged; a non-zero return code of the provider gives
FALSE. -/
theorem vik_goto_place_true_iff (g : Globals) (name : CStr) (vcoord : VikCoord) :
    ((vik_goto_place g name vcoord).2.1 = true ↔
      g.goto_tools_list ≠ [] ∧
      ∃ tool, g_list_nth_data g.goto_tools_list (get_provider g).last_goto_tool = some tool ∧
        (tool.get_coord name vcoord).1 = 0) ∧
    (∀ tool, g_list_nth_data g.goto_tools_list (get_provider g).last_goto_tool = some tool →
      (tool.get_coord name vcoord).1 = 0 →
      (vik_goto_place g name vcoord).2.2 = (tool.get_coord name vcoord).2) ∧
    (g.goto_tools_list = [] →
      (vik_goto_place g name vcoord).2.1 = false ∧
      (vik_goto_place g name vcoord).1.get_coord_calls = g.get_coord_calls) ∧
    (∀ tool, g_list_nth_data g.goto_tools_list (get_provider g).last_goto_tool = some tool →
      (tool.get_coord name vcoord).1 ≠ 0 → (vik_goto_place g name vcoord).2.1 = false) := by
  have hf := (get_provider_frame g).1
  have hcalls := (get_provider_frame g).2.2.2
  cases h1 : g_list_nth_data (get_provider g).goto_tools_list (get_provider g).last_goto_tool with
  | none =>
    have h2 := h1
    rw [hf] at h2
    rw [vik_goto_place_none g name vcoord h1]
    refine ⟨?_, ?_, ?_, ?_⟩
    · simp [h2]
    · intro tool ht; rw [h2] at ht; cases ht
    · intro _; exact ⟨rfl, hcalls⟩
    · intro tool ht; rw [h2] at ht; cases ht
  | some tool =>
    have h2 := h1
    rw [hf] at h2
    have hne : g.goto_tools_list ≠ [] := by
      intro he
      rw [he, g_list_nth_data_nil] at h2
      cases h2
    rw [vik_goto_place_some g name vcoord tool h1]
    refine ⟨?_, ?_, ?_, ?_⟩
    · simp [h2, hne]
    · intro t ht _
      rw [h2] at ht
      cases ht
      rfl
    · intro he; exact absurd he hne
    · intro t ht hnz
      rw [h2] at ht
      cases ht
      simp [hnz]

/-- C9, the code at the failing input: providers "A" and "B" are registered and
the panel's `get_provider` has cached index 0; a panel search with "B" chosen
stores "B" under "goto_provider" and leaves `last_goto_tool` at 0, so the next
`vik_goto_place` calls provider 0.  The dialog search, from the same state, sets
`last_goto_tool` to 1 and the next `vik_goto_place` calls provider 1. -/
theorem panel_search_keeps_cached_provider :
    (get_provider (sample_globals tools_a_b none)).last_goto_tool = 0 ∧
    (goto_panel_search_response (get_provider (sample_globals tools_a_b none))
        (sample_panel 1) 0).map
      (fun r => (r.1.goto_provider, r.1.last_goto_tool)) = some (some "B".toList, 0) ∧
    (goto_panel_search_response (get_provider (sample_globals tools_a_b none))
        (sample_panel 1) 0).map
      (fun r => (vik_goto_place r.1 "Paris".toList paris).1.get_coord_calls) =
      some [(0, "Paris".toList)] ∧
    (vik_goto_search_response (get_provider (sample_globals tools_a_b none))
        (sample_dialog 1) .accept).map
      (fun r => (r.1.goto_provider, r.1.last_goto_tool)) = some (some "B".toList, 1) ∧
    (vik_goto_search_response (get_provider (sample_globals tools_a_b none))
        (sample_dialog 1) .accept).map
      (fun r => (vik_goto_place r.1 "Paris".toList paris).1.get_coord_calls) =
      some [(1, "Paris".toList)] := by
  refine ⟨by decide, by decide, by decide, by decide, by decide⟩

/-- C10: for every delivered job, failed or not, and every prior content of the
panel's result list, after `_idle_update` the list consists of exactly the rows
(description, lat, lon) of the job's candidates in their order; the first row is
selected if and only if there is a candidate, and no row is selected otherwise;
the find button is sensitive again.  With the single candidate "Paris, France"
at 48.8566, 2.3522 the list is that one row, selected. -/
theorem idle_update_delivers (stt : SearchThreadT) (vgp : VikGotoPanel) :
    (_idle_update stt vgp).results_store = stt.candidates.map candidate_row ∧
    ((_idle_update stt vgp).selection = some 0 ↔ stt.candidates ≠ []) ∧
    (stt.candidates = [] → (_idle_update stt vgp).selection = none) ∧
    (_idle_update stt vgp).find_button_sensitive = true ∧
    (stt.candidates = [paris_candidate] →
      (_idle_update stt vgp).results_store =
        [{ desc := "Paris, France".toList, lat := 488566 / 10000, lon := 23522 / 10000 }] ∧
      (_idle_update stt vgp).selection = some 0) := by
  have hstore : (_idle_update stt vgp).results_store = stt.candidates.map candidate_row := by
    unfold _idle_update
    simp only [gtk_list_store_clear, append_candidates_eq, List.nil_append]
    split <;> split <;> rfl
  have hsel : (_idle_update stt vgp).selection =
      if stt.candidates.length > 0 then some 0 else none := by
    unfold _idle_update
    simp only [gtk_list_store_clear]
    split <;> split <;> rfl
  have hbtn : (_idle_update stt vgp).find_button_sensitive = true := by
    unfold _idle_update
    rfl
  refine ⟨hstore, ?_, ?_, hbtn, ?_⟩
  · rw [hsel]
    cases hc : stt.candidates with
    | nil => simp
    | cons c rest => simp
  · intro hc
    rw [hsel, hc]
    simp
  · intro hc
    rw [hstore, hsel, hc]
    simp [candidate_row, paris_candidate]

/-- Instance of C10: the job with the single candidate "Paris, France", delivered
to a panel that still lists and selects a row of an earlier search. -/
theorem idle_update_delivers_witness :
    (sample_panel 0).results_store =
      [{ desc := "Rome".toList, lat := 419 / 10, lon := 125 / 10 }] ∧
    (_idle_update paris_job (sample_panel 0)).results_store =
      [{ desc := "Paris, France".toList, lat := 488566 / 10000, lon := 23522 / 10000 }] ∧
    (_idle_update paris_job (sample_panel 0)).selection = some 0 ∧
    (_idle_update paris_job (sample_panel 0)).find_button_sensitive = true :=
  ⟨rfl,
   ((idle_update_delivers paris_job (sample_panel 0)).2.2.2.2 rfl).1,
   ((idle_update_delivers paris_job (sample_panel 0)).2.2.2.2 rfl).2,
   (idle_update_delivers paris_job (sample_panel 0)).2.2.2.1⟩

/-! ## Lemmas on the panel signals and on the life of a job -/

/-- With a tool selected, `goto_panel_search_response` creates a job whose query
is the text of the entry, whatever that text is. -/
theorem goto_panel_search_response_submits (g : Globals) (vgp : VikGotoPanel) (answer0 : Int)
    (tool : VikGotoTool) (hact : 0 ≤ vgp.tool_list_active)
    (htool : g_list_nth_data g.goto_tools_list vgp.tool_list_active = some tool) :
    submitted_query (goto_panel_search_response g vgp answer0) =
      some (some vgp.goto_entry_text) := by
  unfold goto_panel_search_response submitted_query
  simp only [not_lt.mpr hact, if_false, htool]
  rfl

/-- After an edit that empties the entry the find button is insensitive, and a
click on it reaches no handler. -/
theorem find_clicked_on_emptied_entry (g : Globals) (vgp : VikGotoPanel) (answer0 : Int) :
    (set_entry_text vgp []).find_button_sensitive = false ∧
    panel_signal g (set_entry_text vgp []) answer0 .find_clicked =
      some (g, set_entry_text vgp [], none) := by
  have h : (set_entry_text vgp []).find_button_sensitive = false := by
    simp [set_entry_text, text_changed_cb]
  refine ⟨h, ?_⟩
  simp only [panel_signal, h]
  rfl

theorem job_start_inv (stt : SearchThreadT) (vgp : VikGotoPanel) :
    job_inv (job_start stt vgp) := by
  simp [job_inv, job_start]

theorem job_step_inv (w w1 : JobWorld) (e : JobEvent) (hw : job_inv w)
    (hs : job_step w e = some w1) : job_inv w1 := by
  unfold job_inv at hw ⊢
  cases e with
  | requester_destroyed =>
    simp only [job_step] at hs
    split at hs
    · cases hs
    · simp only [Option.some.injEq] at hs
      subst hs
      exact hw
  | worker_completes =>
    simp only [job_step] at hs
    split at hs
    · cases hs
    · rename_i hd
      simp only [hd] at hw
      split at hs
      · simp only [Option.some.injEq] at hs
        subst hs
        simp only [if_true] at hw ⊢
        split at hw <;> simp_all
      · simp only [Option.some.injEq] at hs
        subst hs
        simp only [if_true] at hw ⊢
        split at hw <;> simp_all
  | idle_delivery =>
    simp only [job_step] at hs
    split at hs
    · rename_i hq
      simp only [hq, if_true] at hw
      split at hs
      · simp only [Option.some.injEq] at hs
        subst hs
        simp only at hw ⊢
        split at hw <;> simp_all
      · simp only [Option.some.injEq] at hs
        subst hs
        simp only at hw ⊢
        split at hw <;> simp_all
    · cases hs

/-- In every run of a job, along every order of the events, the result is
delivered or dropped at most once in all, and exactly once as soon as the
worker has completed and no `_idle_update` is queued. -/
theorem job_run_outcome_once (w w1 : JobWorld) (es : List JobEvent) (hw : job_inv w)
    (hr : job_run w es = some w1) :
    w1.delivered + w1.discarded ≤ 1 ∧
    (w1.worker_done = true → w1.idle_queued = false → w1.delivered + w1.discarded = 1) := by
  induction es generalizing w with
  | nil =>
    simp only [job_run, Option.some.injEq] at hr
    subst hr
    unfold job_inv at hw
    constructor
    · omega
    · intro h1 h2
      simp only [h1, h2] at hw
      simpa using hw
  | cons e rest ih =>
    simp only [job_run] at hr
    cases hs : job_step w e with
    | none => simp [hs] at hr
    | some w2 =>
      simp only [hs] at hr
      exact ih w2 (job_step_inv w w2 e hw hs) hr

/-- For every job and panel, when the requester is destroyed between the
completion of the worker and the idle callback, `_idle_update` still runs, on
the destroyed panel, and `alive` is still `TRUE`. -/
theorem idle_update_runs_after_destroy (stt : SearchThreadT) (vgp : VikGotoPanel)
    (halive : stt.alive = true) :
    ∃ w, job_run (job_start stt vgp)
        [.worker_completes, .requester_destroyed, .idle_delivery] = some w ∧
      w.stale_access = true ∧ w.delivered = 1 ∧ w.discarded = 0 ∧ w.stt.alive = true := by
  simp [job_run, job_step, job_start, get_locations_thread, halive]

/-- The rows delivered for a job are those of the candidates its tool returned,
and the answer is the return code of the tool: nothing is tested in between. -/
theorem delivered_rows_eq (stt : SearchThreadT) (vgp : VikGotoPanel) :
    (_idle_update (get_locations_thread stt).1 vgp).results_store =
      (stt.tool.get_candidates stt.goto_str).2.map candidate_row ∧
    (get_locations_thread stt).1.answer = (stt.tool.get_candidates stt.goto_str).1 := by
  constructor
  · unfold _idle_update
    simp only [gtk_list_store_clear, append_candidates_eq, List.nil_append,
      get_locations_thread]
    split <;> split <;> rfl
  · rfl

/-! ## Lemmas on the accesses of the extraction -/

/-- The copy loop never makes the buffer longer than its size. -/
theorem copy_number_length_le (rest buf : List Char) (h : buf.length ≤ BUF_SIZE) :
    (copy_number rest buf).length ≤ BUF_SIZE := by
  induction rest generalizing buf with
  | nil => simpa [copy_number] using h
  | cons c rest ih =>
    simp only [copy_number]
    split
    · rename_i hc
      apply ih
      simp only [List.length_append, List.length_singleton]
      omega
    · exact h

/-- The copy loop stores the characters it is given as long as they are digits or
dots and the buffer has room. -/
theorem copy_number_of_all (rest buf : List Char)
    (hall : ∀ c ∈ rest, (g_ascii_isdigit c || c == '.') = true)
    (hroom : buf.length + rest.length ≤ BUF_SIZE) :
    copy_number rest buf = buf ++ rest := by
  induction rest generalizing buf with
  | nil => simp [copy_number]
  | cons c rest ih =>
    simp only [List.length_cons] at hroom
    simp only [copy_number]
    rw [if_pos ⟨by omega, hall c (List.mem_cons_self _ _)⟩]
    rw [ih (buf ++ [c]) (fun d hd => hall d (List.mem_cons_of_mem _ hd))
      (by simp only [List.length_append, List.length_singleton]; omega)]
    simp

/-- A write outside the buffer, when there is one, is the write of the final NUL
at index 32, one past the last element. -/
theorem extract_number_write_fault (text pattern : List Char) (i : Nat)
    (h : extract_number text pattern = .error (.write_out_of_bounds i)) : i = BUF_SIZE := by
  unfold extract_number at h
  cases hp : g_strstr_len text pattern with
  | none => simp [hp] at h
  | some p =>
    simp only [hp] at h
    cases hd : text.drop (p + pattern.length) with
    | nil => simp [hd] at h
    | cons c rest =>
      simp only [hd] at h
      have hle : (if c = '-' then copy_number rest [c] else copy_number (c :: rest) []).length
          ≤ BUF_SIZE := by
        split
        · exact copy_number_length_le rest [c] (by simp [BUF_SIZE])
        · exact copy_number_length_le (c :: rest) [] (by simp [BUF_SIZE])
      generalize (if c = '-' then copy_number rest [c] else copy_number (c :: rest) []) = buf
        at h hle
      by_cases hlt : buf.length < BUF_SIZE
      · simp [hlt] at h
      · simp only [hlt, if_false, Except.error.injEq, Fault.write_out_of_bounds.injEq] at h
        omega

/-- Without a quote in the rest of the payload, the scan for the closing quote
reads the character at the end of the payload. -/
theorem scan_to_quote_no_quote (rest : List Char) (pat fragment_len : Nat)
    (h : '"' ∉ rest) :
    scan_to_quote rest pat fragment_len = .error (.read_out_of_bounds (pat + rest.length)) := by
  induction rest generalizing pat fragment_len with
  | nil => simp [scan_to_quote]
  | cons c rest ih =>
    have hc : c ≠ '"' := fun e => h (by rw [e]; exact List.mem_cons_self _ _)
    have hr : '"' ∉ rest := fun m => h (List.mem_cons_of_mem _ m)
    simp only [scan_to_quote, if_neg hc]
    rw [ih (pat + 1) (fragment_len + 1) hr]
    simp only [List.length_cons]
    congr 2
    omega

/-! ## The claims on the panel, the job and the extraction -/

/-- C11, the code at the failing input: the entry of the panel is empty and a tool
is selected.  The "notify::text" handler has made the find button insensitive,
so its "clicked" creates no job; but "activate" of the entry runs
`goto_panel_search_response`, which creates and submits a job with the empty
query.  After "clicked" of the clear button the find button is sensitive again
with the entry still empty, and its "clicked" submits the empty query too. -/
theorem empty_query_is_submitted :
    empty_panel.goto_entry_text = [] ∧
    empty_panel.find_button_sensitive = false ∧
    submitted_query (panel_signal (sample_globals tools_a_b none) empty_panel 7
      .find_clicked) = some none ∧
    submitted_query (panel_signal (sample_globals tools_a_b none) empty_panel 7
      .entry_activate) = some (some []) ∧
    (goto_panel_search_clear empty_panel).goto_entry_text = [] ∧
    (goto_panel_search_clear empty_panel).find_button_sensitive = true ∧
    submitted_query (panel_signal (sample_globals tools_a_b none)
      (goto_panel_search_clear empty_panel) 7 .find_clicked) = some (some []) := by
  refine ⟨by decide, by decide, by decide, by decide, by decide, by decide, by decide⟩

/-- C12, the code at the failing order of events.  Destruction before the worker
completes: the result is dropped once and no idle callback exists.  Worker,
idle callback, then destruction: the result is delivered once to the living
panel.  Worker, destruction, idle callback: the weak reference was removed when
the worker completed, `alive` is still `TRUE`, and `_idle_update` runs on the
destroyed panel. -/
theorem idle_update_after_destroy :
    (job_run (job_start sample_job (sample_panel 0))
        [.requester_destroyed, .worker_completes]).map job_observe =
      some { delivered := 0, discarded := 1, stale_access := false, alive := false,
             rows := none } ∧
    (job_run (job_start sample_job (sample_panel 0))
        [.requester_destroyed, .worker_completes, .idle_delivery]).map job_observe = none ∧
    (job_run (job_start sample_job (sample_panel 0))
        [.worker_completes, .idle_delivery]).map job_observe =
      some { delivered := 1, discarded := 0, stale_access := false, alive := true,
             rows := some [{ desc := "Paris".toList, lat := 488566 / 10000,
                             lon := 23522 / 10000 }] } ∧
    (job_run (job_start sample_job (sample_panel 0))
        [.worker_completes, .idle_delivery, .requester_destroyed]).map job_observe =
      some { delivered := 1, discarded := 0, stale_access := false, alive := true,
             rows := none } ∧
    (job_run (job_start sample_job (sample_panel 0))
        [.worker_completes, .requester_destroyed, .idle_delivery]).map job_observe =
      some { delivered := 1, discarded := 0, stale_access := true, alive := true,
             rows := none } := by
  refine ⟨by decide!, by decide!, by decide!, by decide!, by decide!⟩

/-- C13, amended: the rows that the background search delivers into the
requester's result list are the candidates the provider returned, unchanged and
in order, and the answer of the job is the return code of the provider; no range
is tested between the provider and the list.  Hence every delivered coordinate
satisfies -90 < lat < 90 and -180 < lon < 180 exactly when every candidate of
the provider does. -/
theorem background_search_delivers_as_returned (stt : SearchThreadT) (vgp : VikGotoPanel) :
    (_idle_update (get_locations_thread stt).1 vgp).results_store =
      (stt.tool.get_candidates stt.goto_str).2.map candidate_row ∧
    (get_locations_thread stt).1.answer = (stt.tool.get_candidates stt.goto_str).1 ∧
    ((∀ row ∈ (_idle_update (get_locations_thread stt).1 vgp).results_store,
        in_range row.lat row.lon) ↔
      ∀ c ∈ (stt.tool.get_candidates stt.goto_str).2, in_range c.ll.lat c.ll.lon) := by
  obtain ⟨h1, h2⟩ := delivered_rows_eq stt vgp
  refine ⟨h1, h2, ?_⟩
  rw [h1]
  constructor
  · intro h c hc
    exact h (candidate_row c) (List.mem_map_of_mem _ hc)
  · intro h row hrow
    obtain ⟨c, hc, rfl⟩ := List.mem_map.mp hrow
    exact h c hc

/-- Instance of C13, amended: the tool "A" returns Paris at 48.8566, 2.3522, and
the delivered row is inside the range. -/
theorem background_search_delivers_witness :
    (_idle_update (get_locations_thread sample_job).1 (sample_panel 0)).results_store =
      [{ desc := "Paris".toList, lat := 488566 / 10000, lon := 23522 / 10000 }] ∧
    ∀ row ∈ (_idle_update (get_locations_thread sample_job).1 (sample_panel 0)).results_store,
      in_range row.lat row.lon :=
  ⟨by decide!,
   (background_search_delivers_as_returned sample_job (sample_panel 0)).2.2.mpr
     (by
       intro c hc
       simp only [sample_job, sample_tool, paris, List.map_cons, List.map_nil,
         List.mem_singleton] at hc
       subst hc
       unfold in_range
       norm_num)⟩

/-- C13 as stated fails: a provider whose search succeeds (return code 0) with a
candidate at latitude 95, longitude 200; the job is queued for delivery with
answer 0 and the row (95, 200) is placed in the result list. -/
theorem out_of_range_candidate_delivered :
    (get_locations_thread stray_job).2 = true ∧
    (get_locations_thread stray_job).1.answer = 0 ∧
    (_idle_update (get_locations_thread stray_job).1 (sample_panel 0)).results_store =
      [{ desc := "Nowhere".toList, lat := 95, lon := 200 }] ∧
    ¬ in_range 95 200 := by
  refine ⟨by decide, by decide, by decide!, ?_⟩
  unfold in_range
  norm_num

/-- C14, the code at the failing inputs.  With 32 digits after the latitude
marker the copy loop fills indices 0 to 31 and the final NUL is written at
index 32, outside the 32-byte buffer; the same with a minus sign and 31 digits.
With 31 digits all writes, the NUL included, stay below 32. -/
theorem nul_written_past_buffer :
    extract_number payload_long_latitude JSON_LATITUDE_PATTERN =
      .error (.write_out_of_bounds 32) ∧
    extract_number payload_long_negative JSON_LATITUDE_PATTERN =
      .error (.write_out_of_bounds 32) ∧
    extract_number payload_full_latitude JSON_LATITUDE_PATTERN =
      .ok (some "1234567890123456789012345678901".toList) ∧
    fault_of (a_vik_goto_where_am_i sample_env (sample_globals [atlas] none)
      (.mapped payload_long_latitude) { lat := 7, lon := 7 } paris paris) =
      some (.write_out_of_bounds 32) ∧
    fault_of (a_vik_goto_where_am_i sample_env (sample_globals [atlas] none)
      (.mapped payload_long_negative) { lat := 7, lon := 7 } paris paris) =
      some (.write_out_of_bounds 32) := by
  refine ⟨by decide!, by decide!, by decide!, by decide!, by decide!⟩

/-- C15, the code at the failing inputs.  A payload of 22 characters in which no
quote follows the city marker: the scan for the closing quote reads the
character at index 22.  A payload of 23 characters that ends with the latitude
marker: the test for a leading minus sign reads the character at index 23. -/
theorem reads_past_payload :
    payload_open_city.length = 22 ∧
    extract_quoted payload_open_city JSON_CITY_PATTERN = .error (.read_out_of_bounds 22) ∧
    fault_of (a_vik_goto_where_am_i sample_env (sample_globals [atlas] none)
      (.mapped payload_open_city) { lat := 7, lon := 7 } paris paris) =
      some (.read_out_of_bounds 22) ∧
    payload_marker_last.length = 23 ∧
    extract_number payload_marker_last JSON_LATITUDE_PATTERN =
      .error (.read_out_of_bounds 23) ∧
    fault_of (a_vik_goto_where_am_i sample_env (sample_globals [atlas] none)
      (.mapped payload_marker_last) { lat := 7, lon := 7 } paris paris) =
      some (.read_out_of_bounds 23) := by
  refine ⟨by decide!, by decide!, by decide!, by decide!, by decide!, by decide!⟩

end VikGoto
